import Mathlib

/-!
Verification development for the wheeck DDT-scanning pipeline.

The definitions below are a shallow embedding of the per-page
extraction-and-reconciliation pipeline of src/wheeck/recording_docs.py
(function doc_scanner, lines 122-315), of the helper functions
check_similarity, check_duplicate and save_warning of the same module,
of Delivery.calculate_distance (lines 59-68) and of the geocoding
wrapper src/geo/geo.py (GeoMap.search, GeoMap.get_distance_from_coords).

External collaborators are modelled as oracles:
- the regular-expression pattern matches of PatternExtractor are inputs
  (a PageExtract value holds, per rule, the already-parsed groups that
  re.search would yield, or none when the pattern does not match);
- the database is an explicit DB value; query strings of constants.py
  become pure functions over it; whether an INSERT or UPDATE succeeds
  (cursor rowcount = 1) is an explicit DbOutcome oracle;
- the openrouteservice client is a GeoService oracle (geocode and route
  calls, returning none where the Python wrapper catches ApiError,
  HTTPError or Timeout and returns None);
- difflib.SequenceMatcher.ratio is an oracle function sim, a similarity
  score in Rat between two strings.

Python truthiness (None, 0, 0.0 and the empty string are falsy) is
modelled explicitly by the .*Truthy helpers, and places where the
Python code would raise an uncaught exception are modelled by
Except.error with a ScanErr describing the exception.
-/

namespace Wheeck

/-- A calendar date, as produced by datetime.strptime(..., d/m/Y).date(). -/
structure Date where
  year : Int
  month : Nat
  day : Nat
deriving DecidableEq, Repr

/-- One entry of the members list of wheeck.json: a vehicle plate and its
assigned driver, either possibly absent. -/
structure Member where
  vehicle : Option String
  driver : Option String
deriving DecidableEq, Repr

/-- Python str.upper(), for the ASCII alphabet the patterns of constants.py
capture: upper-case every character. Defined over the character list so that
concrete instances evaluate. -/
def pyUpper (s : String) : String := ⟨s.data.map Char.toUpper⟩

/-- The whitespace characters Python str.strip() removes. -/
def isPySpace (c : Char) : Bool := c = ' ' || c = '\t' || c = '\n' || c = '\r'

/-- Python str.strip(): drop whitespace from both ends. -/
def pyStrip (s : String) : String :=
  ⟨((s.data.dropWhile isPySpace).reverse.dropWhile isPySpace).reverse⟩

/-- Python truthiness of an optional string: None and the empty string are falsy. -/
def strOptTruthy : Option String → Bool
  | some s => s ≠ ""
  | none => false

/-- Python truthiness of an optional integer: None and 0 are falsy. -/
def intOptTruthy : Option Int → Bool
  | some n => n ≠ 0
  | none => false

/-- Python truthiness of an optional rational: None and 0.0 are falsy. -/
def ratOptTruthy : Option Rat → Bool
  | some q => q ≠ 0
  | none => false

/-- vehicles_enum of recording_docs.py line 194: the truthy vehicle values
of the members list, in order. -/
def vehiclesEnum (members : List Member) : List String :=
  members.filterMap (fun e => match e.vehicle with
    | some s => if s ≠ "" then some s else none
    | none => none)

/-- drivers_enum of recording_docs.py line 195: the truthy driver values
of the members list, in order. -/
def driversEnum (members : List Member) : List String :=
  members.filterMap (fun e => match e.driver with
    | some s => if s ≠ "" then some s else none
    | none => none)

/-- dict.fromkeys of recording_docs.py line 404: deduplicate a list keeping
the first occurrence of each element, in order. -/
def dedupFirst {α : Type} [DecidableEq α] : List α → List α
  | [] => []
  | x :: xs => x :: (dedupFirst xs).filter (fun y => y ≠ x)

/-- The element selected by sorted(enum, key=enum.get, reverse=True)[0] at
recording_docs.py line 408: the first element of the list attaining the
maximal score (sorted is stable, so among equal scores the original order
is kept). Returns none exactly on the empty list, where the Python code
raises IndexError. -/
def argmaxFirst {α : Type} (f : α → Rat) : List α → Option α
  | [] => none
  | x :: xs => match argmaxFirst f xs with
    | none => some x
    | some y => if f y > f x then some y else some x

/-- check_similarity of recording_docs.py lines 391-410, parametrised by the
similarity score sim modelling SequenceMatcher(None, record, source_record).ratio().
Returns the highest-scoring record of source_enum when its score strictly
exceeds 0.5, the raw source_record otherwise, and none when source_enum is
empty (where the Python code raises IndexError on sorted(...)[0]). -/
def check_similarity (sim : String → String → Rat) (source_record : String)
    (source_enum : List String) : Option String :=
  match argmaxFirst (fun r => sim r source_record) (dedupFirst source_enum) with
  | none => none
  | some m => some (if sim m source_record > mkRat 1 2 then m else source_record)

theorem dedupFirst_mem {α : Type} [DecidableEq α] (l : List α) (x : α) :
    x ∈ dedupFirst l ↔ x ∈ l := by
  induction l with
  | nil => simp [dedupFirst]
  | cons a as ih =>
    by_cases hxa : x = a
    · subst hxa
      simp [dedupFirst]
    · simp only [dedupFirst, List.mem_cons, List.mem_filter]
      constructor
      · rintro (h | ⟨h, _⟩)
        · exact absurd h hxa
        · exact Or.inr (ih.mp h)
      · rintro (h | h)
        · exact absurd h hxa
        · exact Or.inr ⟨ih.mpr h, by simpa using hxa⟩

theorem argmaxFirst_eq_none {α : Type} (f : α → Rat) (l : List α)
    (h : argmaxFirst f l = none) : l = [] := by
  cases l with
  | nil => rfl
  | cons a as =>
    rw [argmaxFirst] at h
    cases h' : argmaxFirst f as <;> rw [h'] at h
    · simp at h
    · split at h <;> first
      | (split at h <;> simp at h)
      | simp at h

theorem argmaxFirst_spec {α : Type} (f : α → Rat) (l : List α) (h : l ≠ []) :
    ∃ m, argmaxFirst f l = some m ∧ m ∈ l ∧ ∀ x ∈ l, f x ≤ f m := by
  induction l with
  | nil => exact absurd rfl h
  | cons a as ih =>
    by_cases has : as = []
    · subst has
      refine ⟨a, by simp [argmaxFirst], List.mem_cons_self a _, ?_⟩
      intro x hx
      rcases List.mem_cons.mp hx with hx | hx
      · exact le_of_eq (congrArg f hx)
      · simp at hx
    · obtain ⟨m, hm, hmem, hmax⟩ := ih has
      rw [argmaxFirst, hm]
      by_cases hgt : f a < f m
      · refine ⟨m, by simp [hgt], List.mem_cons_of_mem a hmem, ?_⟩
        intro x hx
        rcases List.mem_cons.mp hx with hx | hx
        · exact hx ▸ le_of_lt hgt
        · exact hmax x hx
      · refine ⟨a, by simp [hgt], List.mem_cons_self a _, ?_⟩
        intro x hx
        rcases List.mem_cons.mp hx with hx | hx
        · exact le_of_eq (congrArg f hx)
        · exact le_trans (hmax x hx) (not_lt.mp hgt)

theorem dedupFirst_ne_nil {α : Type} [DecidableEq α] (l : List α) (h : l ≠ []) :
    dedupFirst l ≠ [] := by
  cases l with
  | nil => exact absurd rfl h
  | cons a as => simp [dedupFirst]

/-- C4: for every token and every non-empty canonical set, check_similarity
returns the canonical value with the maximal similarity score exactly when
that maximum strictly exceeds 0.5, and returns the raw token unchanged when
the maximum is 0.5 or lower, so the caller can only detect the unresolved
case by testing membership of the result in the canonical set. -/
theorem C4_similarity_threshold (sim : String → String → Rat) (tok : String)
    (enum : List String) (h : enum ≠ []) :
    ((∀ r ∈ enum, sim r tok ≤ mkRat 1 2) → check_similarity sim tok enum = some tok) ∧
    ((∃ r ∈ enum, mkRat 1 2 < sim r tok) →
      ∃ m, check_similarity sim tok enum = some m ∧ m ∈ enum ∧
        mkRat 1 2 < sim m tok ∧ ∀ r ∈ enum, sim r tok ≤ sim m tok) := by
  obtain ⟨m, hm, hmem, hmax⟩ :=
    argmaxFirst_spec (fun r => sim r tok) (dedupFirst enum) (dedupFirst_ne_nil enum h)
  constructor
  · intro hle
    have hm2 : sim m tok ≤ mkRat 1 2 := hle m ((dedupFirst_mem enum m).mp hmem)
    simp only [check_similarity, hm]
    rw [if_neg (not_lt.mpr hm2)]
  · rintro ⟨r, hr, hrgt⟩
    have hrle : sim r tok ≤ sim m tok := hmax r ((dedupFirst_mem enum r).mpr hr)
    have hmgt : mkRat 1 2 < sim m tok := lt_of_lt_of_le hrgt hrle
    refine ⟨m, ?_, (dedupFirst_mem enum m).mp hmem, hmgt, ?_⟩
    · simp only [check_similarity, hm]
      rw [if_pos hmgt]
    · intro x hx
      exact hmax x ((dedupFirst_mem enum x).mpr hx)

/-- A similarity oracle that scores every pair at exactly 0.5, exercising
the boundary case of the threshold. -/
def simHalf : String → String → Rat := fun _ _ => mkRat 1 2

/-- A similarity oracle under which AB123CD scores 0.8 and everything else 0.1. -/
def simNear : String → String → Rat :=
  fun r _ => if r = "AB123CD" then mkRat 4 5 else mkRat 1 10

theorem C4_similarity_threshold_witness :
    check_similarity simHalf "ZZ000ZZ" ["AB123CD"] = some "ZZ000ZZ" ∧
    (∃ m, check_similarity simNear "AB12E3CD" ["AB123CD", "ZZ000ZZ"] = some m ∧
      m ∈ ["AB123CD", "ZZ000ZZ"] ∧ mkRat 1 2 < simNear m "AB12E3CD" ∧
      ∀ r ∈ ["AB123CD", "ZZ000ZZ"], simNear r "AB12E3CD" ≤ simNear m "AB12E3CD") :=
  ⟨(C4_similarity_threshold simHalf "ZZ000ZZ" ["AB123CD"] (by decide)).1 (by decide),
   (C4_similarity_threshold simNear "AB12E3CD" ["AB123CD", "ZZ000ZZ"] (by decide)).2
     (by decide)⟩

/-- The Delivery dataclass of recording_docs.py lines 28-46, with fields in
declaration order; every field defaulting to None is an Option. -/
structure Delivery where
  document_number : Option Int
  document_genre : Option String
  document_date : Option Date
  company_name : Option String
  delivery_city : Option String
  quantity : Option Int
  delivery_date : Option Date
  vehicle : Option String
  vehicle_driver : Option String
  distance : Option Rat
  document_source : String
  page_number : Int
  recording_date : Nat
  id_warning_message : Option Int
deriving DecidableEq, Repr

/-- A fresh Delivery as built at recording_docs.py line 127: only
document_source, page_number and recording_date are set. -/
def blankDelivery (src : String) (pg : Int) (ts : Nat) : Delivery :=
  ⟨none, none, none, none, none, none, none, none, none, none, src, pg, ts, none⟩

/-- A persisted row of the wheeck.delivery table, in the column order of
QUERY_INSERT_DELIVERY, which receives astuple(delivery) without the final
id_warning_message field. -/
structure DeliveryRow where
  document_number : Option Int
  document_genre : Option String
  document_date : Option Date
  company_name : Option String
  delivery_city : Option String
  quantity : Option Int
  delivery_date : Option Date
  vehicle : Option String
  vehicle_driver : Option String
  distance : Option Rat
  document_source : String
  page_number : Int
  recording_date : Nat
deriving DecidableEq, Repr

/-- The row inserted by QUERY_INSERT_DELIVERY at recording_docs.py line 278:
every Delivery field except id_warning_message. -/
def deliveryRowOf (d : Delivery) : DeliveryRow :=
  ⟨d.document_number, d.document_genre, d.document_date, d.company_name,
   d.delivery_city, d.quantity, d.delivery_date, d.vehicle, d.vehicle_driver,
   d.distance, d.document_source, d.page_number, d.recording_date⟩

/-- A row of the wheeck.delivery_discard table: the columns of
QUERY_INSERT_DISCARD plus the status flag (TRUE while the discard awaits a
manual correction, the filter of QUERY_GET_DISCARD). -/
structure DiscardRow where
  document_number : Option Int
  document_genre : Option String
  document_date : Option Date
  company_name : Option String
  delivery_city : Option String
  quantity : Option Int
  delivery_date : Option Date
  vehicle : Option String
  vehicle_driver : Option String
  distance : Option Rat
  document_source : String
  page_number : Int
  recording_date : Nat
  id_warning_message : Int
  status : Bool
deriving DecidableEq, Repr

/-- The row inserted by QUERY_INSERT_DISCARD at recording_docs.py line 300:
astuple(delivery) with the given warning id, status defaulting to TRUE. -/
def discardRowOf (d : Delivery) (wid : Int) : DiscardRow :=
  ⟨d.document_number, d.document_genre, d.document_date, d.company_name,
   d.delivery_city, d.quantity, d.delivery_date, d.vehicle, d.vehicle_driver,
   d.distance, d.document_source, d.page_number, d.recording_date, wid, true⟩

/-- The test None not in discard at recording_docs.py line 250, over the
eleven columns selected by QUERY_GET_DISCARD (id_warning_message is a
non-nullable column, so only the ten data fields can hold NULL). -/
def discardHasNull (r : DiscardRow) : Bool :=
  r.document_number.isNone || r.document_genre.isNone || r.document_date.isNone ||
  r.company_name.isNone || r.delivery_city.isNone || r.quantity.isNone ||
  r.delivery_date.isNone || r.vehicle.isNone || r.vehicle_driver.isNone ||
  r.distance.isNone

/-- delivery.charge(dict(zip(querier.row_header(), discard))) at
recording_docs.py line 251: copy the eleven selected columns of the discard
row onto the current Delivery; document_source, page_number and
recording_date are not among the selected columns and stay unchanged. -/
def chargeFromDiscard (d : Delivery) (r : DiscardRow) : Delivery :=
  { d with
    document_number := r.document_number
    document_genre := r.document_genre
    document_date := r.document_date
    company_name := r.company_name
    delivery_city := r.delivery_city
    quantity := r.quantity
    delivery_date := r.delivery_date
    vehicle := r.vehicle
    vehicle_driver := r.vehicle_driver
    distance := r.distance
    id_warning_message := some r.id_warning_message }

/-- The genre column of a wheeck.delivery_warning row, the MessageGenre enum
names of recording_docs.py lines 82-85. -/
inductive MsgGenre where
  | DISCARD
  | GAP
  | WARNING
deriving DecidableEq, Repr

/-- A row of the wheeck.delivery_warning table: its id, genre, and status
flag (TRUE = open, set to FALSE by QUERY_UPDATE_WARNING). -/
structure WarningRow where
  id : Int
  genre : MsgGenre
  status : Bool
deriving DecidableEq, Repr

/-- Modelled from the spec: one row of the database view vw_gap_message,
whose SQL definition lives in the database schema and is not part of the
repository sources. Per the spec it lists the open GAP-genre warnings
together with the document number and year parsed back from the message,
as consumed by QUERY_GET_GAP. -/
structure GapMsg where
  id : Int
  document_number : Int
  document_year : Int
deriving DecidableEq, Repr

/-- The persistent state the pipeline reads and writes: the delivery,
delivery_discard and delivery_warning tables, the vw_gap_message view, and
the next id the RETURNING clause of QUERY_INSERT_WARNING would yield. -/
structure DB where
  deliveries : List DeliveryRow
  discards : List DiscardRow
  warnings : List WarningRow
  gapView : List GapMsg
  nextWarningId : Int
deriving DecidableEq, Repr

/-- Oracle for the external geocoding and routing service: geocode is
pelias_search (address and country to coordinates), route is the directions
call (two coordinate pairs to a distance in meters); none stands for any
caught ApiError, HTTPError or Timeout, or an empty feature list. -/
structure GeoService where
  geocode : String → String → Option (Rat × Rat)
  route : Rat × Rat → Rat × Rat → Option Rat

/-- The configuration the pipeline reads: the members roster of wheeck.json,
the departure_coords entry, the geocoding service client, and the similarity
score oracle. -/
structure Config where
  members : List Member
  departure_coords : Rat × Rat
  svc : GeoService
  sim : String → String → Rat

/-- Oracle for the rowcount results of the INSERT statements issued while
processing one page (1 row affected = success). -/
structure DbOutcome where
  insertDeliveryOk : Bool
  insertWarningOk : Bool
  insertDiscardOk : Bool
deriving DecidableEq, Repr

/-- The uncaught Python exceptions the per-page pipeline can raise. -/
inductive ScanErr where
  /-- AttributeError from evaluating delivery.document_date.year when
  document_date is None (recording_docs.py line 309 or 366). -/
  | noneYear
  /-- The pyodbc error raised when Querier.run receives only None arguments
  and therefore executes a parametrised query with no parameters
  (querier.py lines 114-118, reached from recording_docs.py line 266 when
  delivery_city is None). -/
  | paramMarkers
  /-- IndexError from sorted(...)[0] in check_similarity on an empty enum
  (recording_docs.py line 408). -/
  | indexErr
deriving DecidableEq, Repr

/-- The observable side effects accumulated while processing one page. -/
structure Trace where
  insertedDeliveries : List DeliveryRow
  insertedWarnings : List WarningRow
  insertedDiscards : List DiscardRow
  warningUpdates : List Int
  geocodeCalls : List (String × String)
  routeCalls : List ((Rat × Rat) × (Rat × Rat))
  slept : Bool
  isolated : Bool
deriving DecidableEq, Repr

/-- The empty trace, at the start of a page. -/
def Trace.empty : Trace := ⟨[], [], [], [], [], [], false, false⟩

/-- The mutable state threaded through the steps of one page of doc_scanner:
the database, the Delivery being built, the accumulated failed-pattern names
(discarded_pages.on_error, a comma-joined string in the source, kept here as
the ordered list of its components, None being the empty list), and the
effect trace. -/
structure Scan where
  db : DB
  delivery : Delivery
  failedRules : List String
  trace : Trace
deriving DecidableEq, Repr

/-- The outcome of one page: final state plus the failed-rule set as it
stood at recording_docs.py line 289 (before discarded_pages.restart), and
the increment of the discarded-pages counter. -/
structure PageResult where
  db : DB
  delivery : Delivery
  failedRules : List String
  trace : Trace
  discardedDelta : Nat
deriving DecidableEq, Repr

/-- save_warning of recording_docs.py lines 413-432: insert a warning row;
on rowcount 1 fetch the RETURNING id, otherwise return -1. Besides the id
the model also returns the updated database and, for the effect trace, the
list of rows actually inserted (empty or a singleton). -/
def save_warning (db : DB) (ok : Bool) (genre : MsgGenre) :
    DB × Int × List WarningRow :=
  if ok then
    ({ db with
       warnings := db.warnings ++ [⟨db.nextWarningId, genre, true⟩],
       nextWarningId := db.nextWarningId + 1 },
     db.nextWarningId, [⟨db.nextWarningId, genre, true⟩])
  else (db, -1, [])

/-- QUERY_UPDATE_WARNING: set status = FALSE on the warning with the given id. -/
def update_warning (db : DB) (wid : Int) : DB :=
  { db with warnings :=
      db.warnings.map (fun w => if w.id = wid then { w with status := false } else w) }

/-- One disjunct of the WHERE clause of QUERY_CHECK_DUPLICATE, for a stored
row against the current delivery (SQL comparisons against NULL are false,
hence the matches on the optional columns). The year of the current
document_date is passed separately because Python evaluates it before the
query runs. -/
def dupMatch (r : DeliveryRow) (d : Delivery) (y : Int) : Bool :=
  (r.document_source == d.document_source && r.page_number == d.page_number) ||
  ((match r.document_number, d.document_number with
    | some a, some b => a == b
    | _, _ => false) &&
   (match r.document_genre, d.document_genre with
    | some a, some b => a == b
    | _, _ => false) &&
   (match r.document_date with
    | some rd => rd.year == y
    | none => false))

/-- check_duplicate of recording_docs.py lines 351-370: COUNT the rows of
wheeck.delivery matching QUERY_CHECK_DUPLICATE and convert to bool. The
call evaluates delivery.document_date.year, which raises AttributeError
when document_date is None. -/
def check_duplicate (db : DB) (d : Delivery) : Except ScanErr Bool :=
  match d.document_date with
  | none => Except.error ScanErr.noneYear
  | some dt => Except.ok (db.deliveries.any (fun r => dupMatch r d dt.year))

/-- The result rows of QUERY_GET_DISTANCE: the DISTINCT stored distances of
delivery rows whose delivery_city equals the given city (a NULL stored city
never equals the parameter). -/
def distinctDistances (db : DB) (city : String) : List (Option Rat) :=
  dedupFirst ((db.deliveries.filter
    (fun r => r.delivery_city == some city)).map (fun r => r.distance))

/-- GeoMap.search of geo.py lines 25-50: pelias_search for the address in
the country; the service oracle already folds empty feature lists and the
caught ApiError, HTTPError and Timeout into none. -/
def geo_search (svc : GeoService) (address country : String) :
    Option (Rat × Rat) :=
  svc.geocode address country

/-- GeoMap.get_distance_from_coords of geo.py lines 76-101: the route
distance in meters divided by 1000, or none on a caught service error. -/
def geo_distance_from_coords (svc : GeoService) (departure destination : Rat × Rat) :
    Option Rat :=
  (svc.route departure destination).map (fun m => m / 1000)

/-- Delivery.calculate_distance of recording_docs.py lines 59-68: when
delivery_city is truthy, geocode it with the default country IT, read the
departure coordinates from wheeck.json, and set distance to the routed
kilometers, or to None when geocoding returned no destination. Returns the
updated delivery, the geocode calls issued and the route calls issued. -/
def calculate_distance (cfg : Config) (d : Delivery) :
    Delivery × List (String × String) × List ((Rat × Rat) × (Rat × Rat)) :=
  match d.delivery_city with
  | some city =>
    if city ≠ "" then
      match geo_search cfg.svc city "IT" with
      | some destination =>
        ({ d with distance :=
             geo_distance_from_coords cfg.svc cfg.departure_coords destination },
         [(city, "IT")], [(cfg.departure_coords, destination)])
      | none => ({ d with distance := none }, [(city, "IT")], [])
    else (d, [], [])
  | none => (d, [], [])

/-- next((e.driver for e in members if e.vehicle == delivery.vehicle), None)
at recording_docs.py lines 215-216: the assigned driver of the first roster
entry whose vehicle equals the resolved vehicle. -/
def rosterDriver (members : List Member) (v : Option String) : Option String :=
  match members.find? (fun e => e.vehicle == v) with
  | some e => e.driver
  | none => none

/-- Python membership of an optional string in a string list (None is never
a member, since the canonical lists hold no None). -/
def optMem (o : Option String) (l : List String) : Bool :=
  match o with
  | some s => decide (s ∈ l)
  | none => false

/-- The discard of a driver token that looks like a vehicle,
recording_docs.py line 211: a raw driver equal to the raw vehicle token or
contained in the canonical vehicle list becomes None. -/
def discardVehicleLike (vehicle : String) (vehicles : List String) :
    Option String → Option String
  | some s => if s = vehicle ∨ s ∈ vehicles then none else some s
  | none => none

/-- calc_driver of recording_docs.py line 213: check_similarity on the
remaining driver token when it is truthy, None otherwise. -/
def driver_calc (sim : String → String → Rat) (drivers : List String)
    (driver1 : Option String) : Except ScanErr (Option String) :=
  if strOptTruthy driver1 then
    match driver1 with
    | some s =>
      match check_similarity sim s drivers with
      | some c => Except.ok (some c)
      | none => Except.error ScanErr.indexErr
    | none => Except.ok none
  else Except.ok none

/-- The driver resolution of recording_docs.py lines 209-216: keep a raw
driver already in the canonical list; discard a raw driver equal to the raw
vehicle token or contained in the canonical vehicle list; run
check_similarity on what is left; accept its result only when it changed
the token, otherwise fall back to the roster driver of the resolved
vehicle. -/
def resolve_driver (sim : String → String → Rat) (members : List Member)
    (vehicle : String) (dvehicle : Option String) (driver0 : Option String) :
    Except ScanErr (Option String) :=
  if optMem driver0 (driversEnum members) then Except.ok driver0
  else
    match driver_calc sim (driversEnum members)
        (discardVehicleLike vehicle (vehiclesEnum members) driver0) with
    | Except.error e => Except.error e
    | Except.ok calcd =>
      if strOptTruthy (discardVehicleLike vehicle (vehiclesEnum members) driver0) ∧
          discardVehicleLike vehicle (vehiclesEnum members) driver0 ≠ calcd
      then Except.ok calcd
      else Except.ok (rosterDriver members dvehicle)

/-- The per-rule extraction outcomes that re.search yields on the page text:
for each pattern of constants.py, the already-parsed groups or none when the
pattern does not match. -/
structure PageExtract where
  docNumber : Option (Int × String × Date)
  cityDx : Option (String × String)
  citySx : Option (String × String)
  quantity : Option Int
  vehicle : Option (String × Option String)
deriving DecidableEq, Repr

/-- The vehicle token resolution of recording_docs.py lines 198-199: keep a
token already in the canonical list, otherwise run check_similarity (which
raises IndexError, modelled as an error, on an empty canonical list). -/
def vehicle_resolve (sim : String → String → Rat) (vehicle : String)
    (vehicles : List String) : Except ScanErr String :=
  if vehicle ∈ vehicles then Except.ok vehicle
  else
    match check_similarity sim vehicle vehicles with
    | some m => Except.ok m
    | none => Except.error ScanErr.indexErr

/-- The raw driver group of PATTERN_VEHICLE as the source normalises it at
recording_docs.py line 191: None when absent or empty, upper-cased otherwise. -/
def pyDriverTok : Option String → Option String
  | some s => if s = "" then none else some (pyUpper s)
  | none => none

/-- One conditional save_warning call of genre WARNING, appending the
inserted rows to the trace (recording_docs.py lines 200-207 and 218-225). -/
def warnGate (cond : Bool) (db : DB) (ok : Bool) (tr : Trace) : DB × Trace :=
  if cond then
    let sw := save_warning db ok MsgGenre.WARNING
    (sw.1, { tr with insertedWarnings := tr.insertedWarnings ++ sw.2.2 })
  else (db, tr)

/-- The two similarity-crash warning points of the vehicle rule: a WARNING
when the resolved vehicle is outside the canonical vehicle list, then a
WARNING when the resolved driver is outside the canonical driver list. -/
def vehicle_warnings (cfg : Config) (dbo : DbOutcome) (dvehicle : String)
    (vd : Option String) (db : DB) : DB × Trace :=
  let st1 := warnGate (!decide (dvehicle ∈ vehiclesEnum cfg.members)) db
    dbo.insertWarningOk Trace.empty
  warnGate (!optMem vd (driversEnum cfg.members)) st1.1 dbo.insertWarningOk st1.2

/-- The vehicle-and-driver part of the extraction, recording_docs.py lines
187-232: resolve the vehicle against the canonical list (check_similarity on
a miss, a WARNING saved when still outside the list), then resolve the
driver (a WARNING saved when the result is outside the driver list). -/
def vehicle_step (cfg : Config) (dbo : DbOutcome)
    (vtok : Option (String × Option String)) (db : DB) (d : Delivery)
    (fails : List String) : Except ScanErr Scan :=
  match vtok with
  | none => Except.ok ⟨db, d, fails ++ ["PATTERN_VEHICLE"], Trace.empty⟩
  | some (vRaw, drRaw) =>
    match vehicle_resolve cfg.sim (pyUpper vRaw) (vehiclesEnum cfg.members) with
    | Except.error e => Except.error e
    | Except.ok dvehicle =>
      match resolve_driver cfg.sim cfg.members (pyUpper vRaw) (some dvehicle)
          (pyDriverTok drRaw) with
      | Except.error e => Except.error e
      | Except.ok vd =>
        Except.ok ⟨(vehicle_warnings cfg dbo dvehicle vd db).1,
                   { d with vehicle := some dvehicle, vehicle_driver := vd },
                   fails, (vehicle_warnings cfg dbo dvehicle vd db).2⟩

/-- The pure field part of the extraction, recording_docs.py lines 127-184:
apply the DOC_NUMBER, CITY (right side, then left side) and QUANTITY rules in
order, accumulating the failed pattern names, upper-casing and trimming the
captured groups as the source does, and copying document_date into
delivery_date. -/
def extract_fields (extr : PageExtract) (src : String) (pg : Int) (ts : Nat) :
    Delivery × List String :=
  let d0 := blankDelivery src pg ts
  let s1 : Delivery × List String :=
    match extr.docNumber with
    | some (n, g, dt) =>
      ({ d0 with document_number := some n, document_genre := some (pyUpper g),
                 document_date := some dt }, [])
    | none => (d0, ["PATTERN_DOC_NUMBER"])
  let s2 : Delivery × List String :=
    match (match extr.cityDx with
           | some x => some x
           | none => extr.citySx) with
    | some (comp, city) =>
      ({ s1.1 with company_name := some (pyStrip (pyUpper comp)),
                   delivery_city := some (pyStrip (pyUpper city)) }, s1.2)
    | none => (s1.1, s1.2 ++ ["PATTERN_CITY"])
  let s3 : Delivery × List String :=
    match extr.quantity with
    | some q => ({ s2.1 with quantity := some q }, s2.2)
    | none => (s2.1, s2.2 ++ ["PATTERN_QUANTITY"])
  ({ s3.1 with delivery_date := s3.1.document_date }, s3.2)

/-- The extraction part of one doc_scanner iteration, recording_docs.py
lines 122-232: the pure field rules followed by the vehicle and driver
resolution. -/
def extract_page (cfg : Config) (dbo : DbOutcome) (extr : PageExtract)
    (src : String) (pg : Int) (ts : Nat) (db : DB) : Except ScanErr Scan :=
  vehicle_step cfg dbo extr.vehicle db (extract_fields extr src pg ts).1
    (extract_fields extr src pg ts).2

/-- The QUERY_GET_DISCARD filter of constants.py: an open discard row for
the given source document and page. -/
def openDiscard (src : String) (pno : Int) (r : DiscardRow) : Bool :=
  r.status && r.document_source == src && r.page_number == pno

/-- The discard-document step, recording_docs.py lines 234-255: when the
working file name matches PATTERN_DISCARD_DOC (the match result, base name
and page number, is an input), look up an open discard row; when one exists
and the page still has failures, either charge the delivery from a fully
populated discard row and clear the failures, or keep the failures and
carry over the discard warning id. -/
def discard_step (scan : Scan) (discardMatch : Option (String × Int)) : Scan :=
  match discardMatch with
  | none => scan
  | some (base, pno) =>
    let src := base ++ ".pdf"
    match scan.db.discards.filter (openDiscard src pno) with
    | [] => scan
    | discard :: _ =>
      if scan.failedRules ≠ [] then
        if discardHasNull discard then
          { scan with delivery :=
              { scan.delivery with id_warning_message := some discard.id_warning_message } }
        else
          { scan with delivery := chargeFromDiscard scan.delivery discard,
                      failedRules := [] }
      else scan

/-- The distance part of recording_docs.py lines 263-273: nothing when the
delivery already has a truthy distance; otherwise query QUERY_GET_DISTANCE
(Querier.run crashes when delivery_city is None, since a parameter list of
only None values makes it execute the parametrised query with no
parameters); on exactly one distinct stored distance reuse it (fetchval, the
first row), otherwise call calculate_distance and sleep 1.5 seconds. -/
def distance_step (cfg : Config) (scan : Scan) : Except ScanErr Scan :=
  if ratOptTruthy scan.delivery.distance then Except.ok scan
  else
    match scan.delivery.delivery_city with
    | none => Except.error ScanErr.paramMarkers
    | some city =>
      if (distinctDistances scan.db city).length = 1 then
        Except.ok { scan with delivery := { scan.delivery with distance := match distinctDistances scan.db city with | v :: _ => v | [] => none } }
      else
        Except.ok { scan with
            delivery := (calculate_distance cfg scan.delivery).1,
            trace := { scan.trace with geocodeCalls := scan.trace.geocodeCalls ++ (calculate_distance cfg scan.delivery).2.1, routeCalls := scan.trace.routeCalls ++ (calculate_distance cfg scan.delivery).2.2, slept := true } }

/-- Recording_docs.py lines 257-273: with no failures so far, run the
duplicate check; a duplicate marks the page failed with CHECK_DUPLICATE and
sets the -1 sentinel; otherwise (and also whenever there are failures) fall
through to the distance step. -/
def dup_distance_step (cfg : Config) (scan : Scan) : Except ScanErr Scan :=
  if scan.failedRules = [] then
    match check_duplicate scan.db scan.delivery with
    | Except.error e => Except.error e
    | Except.ok true =>
      Except.ok { scan with
                    failedRules := ["CHECK_DUPLICATE"],
                    delivery := { scan.delivery with id_warning_message := some (-1) } }
    | Except.ok false => distance_step cfg scan
  else distance_step cfg scan

/-- The persistence step, recording_docs.py lines 276-286: with no failures,
insert the delivery row; a rowcount other than 1 turns the page into an
INSERT_DELIVERY failure; on success, a truthy id_warning_message is flipped
to resolved by QUERY_UPDATE_WARNING. -/
def persist_step (dbo : DbOutcome) (scan : Scan) : Scan :=
  if scan.failedRules = [] then
    if dbo.insertDeliveryOk then
      let row := deliveryRowOf scan.delivery
      let db1 := { scan.db with deliveries := scan.db.deliveries ++ [row] }
      let tr1 := { scan.trace with
                     insertedDeliveries := scan.trace.insertedDeliveries ++ [row] }
      let scan1 := { scan with db := db1, trace := tr1 }
      if intOptTruthy scan.delivery.id_warning_message then
        let wid := match scan.delivery.id_warning_message with
          | some n => n
          | none => 0
        let tr2 := { tr1 with warningUpdates := tr1.warningUpdates ++ [wid] }
        { scan1 with db := update_warning db1 wid, trace := tr2 }
      else scan1
    else { scan with failedRules := ["INSERT_DELIVERY"] }
  else scan

/-- The error branch, recording_docs.py lines 289-306: when the page has
failures and no warning id yet, save a DISCARD warning; unless save_warning
returned the -1 sentinel, insert the discard row; in every failing case
isolate the page into its own file (discard_doc) and restart the counter,
clearing the failure set. -/
def error_step (dbo : DbOutcome) (scan : Scan) : Scan :=
  if scan.failedRules ≠ [] then
    if intOptTruthy scan.delivery.id_warning_message then
      { scan with failedRules := [], trace := { scan.trace with isolated := true } }
    else
      if (save_warning scan.db dbo.insertWarningOk MsgGenre.DISCARD).2.1 ≠ -1 ∧ dbo.insertDiscardOk then
        { scan with
            db := { (save_warning scan.db dbo.insertWarningOk MsgGenre.DISCARD).1 with discards := (save_warning scan.db dbo.insertWarningOk MsgGenre.DISCARD).1.discards ++ [discardRowOf { scan.delivery with id_warning_message := some (save_warning scan.db dbo.insertWarningOk MsgGenre.DISCARD).2.1 } (save_warning scan.db dbo.insertWarningOk MsgGenre.DISCARD).2.1] },
            delivery := { scan.delivery with id_warning_message := some (save_warning scan.db dbo.insertWarningOk MsgGenre.DISCARD).2.1 },
            failedRules := [],
            trace := { scan.trace with insertedWarnings := scan.trace.insertedWarnings ++ (save_warning scan.db dbo.insertWarningOk MsgGenre.DISCARD).2.2, insertedDiscards := scan.trace.insertedDiscards ++ [discardRowOf { scan.delivery with id_warning_message := some (save_warning scan.db dbo.insertWarningOk MsgGenre.DISCARD).2.1 } (save_warning scan.db dbo.insertWarningOk MsgGenre.DISCARD).2.1], isolated := true } }
      else
        { scan with
            db := (save_warning scan.db dbo.insertWarningOk MsgGenre.DISCARD).1,
            delivery := { scan.delivery with id_warning_message := some (save_warning scan.db dbo.insertWarningOk MsgGenre.DISCARD).2.1 },
            failedRules := [],
            trace := { scan.trace with insertedWarnings := scan.trace.insertedWarnings ++ (save_warning scan.db dbo.insertWarningOk MsgGenre.DISCARD).2.2, isolated := true } }
  else scan

/-- The gap check, recording_docs.py lines 308-315: QUERY_GET_GAP for the
extracted document number and year. The call evaluates
delivery.document_date.year first, which raises AttributeError when
document_date is None; when the view has a row, its warning is flipped to
resolved. A NULL document_number parameter simply matches no view row. -/
def gap_step (scan : Scan) : Except ScanErr Scan :=
  match scan.delivery.document_date with
  | none => Except.error ScanErr.noneYear
  | some dt =>
    match scan.db.gapView.filter (fun g =>
        (match scan.delivery.document_number with
         | some n => g.document_number == n
         | none => false) && g.document_year == dt.year) with
    | [] => Except.ok scan
    | g :: _ =>
      let tr := { scan.trace with warningUpdates := scan.trace.warningUpdates ++ [g.id] }
      Except.ok { scan with db := update_warning scan.db g.id, trace := tr }

/-- The inputs of one doc_scanner loop iteration: the extraction outcomes of
the page text, the PATTERN_DISCARD_DOC match on the working document name
(base name and isolated page number when it matches), the working document
name, the page number, and the job timestamp. -/
structure PageInput where
  extr : PageExtract
  discardMatch : Option (String × Int)
  srcName : String
  pageNumber : Int
  recordingDate : Nat
deriving DecidableEq, Repr

/-- One full iteration of the page loop of doc_scanner, recording_docs.py
lines 122-315, composing extraction, the discard-document step, the
duplicate and distance steps, persistence, the error branch and the gap
check. -/
def processPage (cfg : Config) (dbo : DbOutcome) (inp : PageInput) (db : DB) :
    Except ScanErr PageResult :=
  match extract_page cfg dbo inp.extr inp.srcName inp.pageNumber inp.recordingDate db with
  | Except.error e => Except.error e
  | Except.ok s1 =>
    match dup_distance_step cfg (discard_step s1 inp.discardMatch) with
    | Except.error e => Except.error e
    | Except.ok s3 =>
      match gap_step (error_step dbo (persist_step dbo s3)) with
      | Except.error e => Except.error e
      | Except.ok s6 =>
        Except.ok ⟨s6.db, s6.delivery, (persist_step dbo s3).failedRules, s6.trace,
                   if (persist_step dbo s3).failedRules = [] then 0 else 1⟩

/-- Every warning row with the given id is resolved (status FALSE). -/
def warningsResolved (db : DB) (i : Int) : Prop :=
  ∀ w ∈ db.warnings, w.id = i → w.status = false

theorem delivery_set_distance_self (d : Delivery) :
    { d with distance := d.distance } = d := by
  cases d
  rfl

theorem update_warning_deliveries (db : DB) (i : Int) :
    (update_warning db i).deliveries = db.deliveries := rfl

theorem update_warning_discards (db : DB) (i : Int) :
    (update_warning db i).discards = db.discards := rfl

theorem update_warning_gapView (db : DB) (i : Int) :
    (update_warning db i).gapView = db.gapView := rfl

theorem update_warning_length (db : DB) (i : Int) :
    (update_warning db i).warnings.length = db.warnings.length := by
  simp [update_warning]

theorem update_warning_resolved_self (db : DB) (i : Int) :
    warningsResolved (update_warning db i) i := by
  intro w hw hid
  simp only [update_warning, List.mem_map] at hw
  obtain ⟨w0, _, heq⟩ := hw
  by_cases h0 : w0.id = i
  · rw [if_pos h0] at heq
    rw [← heq]
  · rw [if_neg h0] at heq
    rw [← heq] at hid
    exact absurd hid h0

theorem update_warning_resolved_mono (db : DB) (i j : Int)
    (h : warningsResolved db i) : warningsResolved (update_warning db j) i := by
  intro w hw hid
  simp only [update_warning, List.mem_map] at hw
  obtain ⟨w0, hw0, heq⟩ := hw
  by_cases h0 : w0.id = j
  · rw [if_pos h0] at heq
    rw [← heq]
  · rw [if_neg h0] at heq
    exact heq ▸ h w0 hw0 (heq ▸ hid)

theorem save_warning_facts (db : DB) (ok : Bool) (g : MsgGenre) :
    (save_warning db ok g).1.deliveries = db.deliveries ∧
    (save_warning db ok g).1.discards = db.discards ∧
    (save_warning db ok g).1.gapView = db.gapView ∧
    (save_warning db ok g).1.warnings = db.warnings ++ (save_warning db ok g).2.2 ∧
    (∀ w ∈ (save_warning db ok g).2.2, w.genre = g) := by
  unfold save_warning
  split <;> simp

theorem check_duplicate_true (db : DB) (d : Delivery) (dt : Date)
    (hdt : d.document_date = some dt)
    (h : ∃ r ∈ db.deliveries, dupMatch r d dt.year = true) :
    check_duplicate db d = Except.ok true := by
  unfold check_duplicate
  rw [hdt]
  obtain ⟨r, hr, hm⟩ := h
  simp only [Except.ok.injEq]
  exact List.any_eq_true.mpr ⟨r, hr, hm⟩

theorem check_duplicate_false (db : DB) (d : Delivery) (dt : Date)
    (hdt : d.document_date = some dt)
    (h : ∀ r ∈ db.deliveries, dupMatch r d dt.year = false) :
    check_duplicate db d = Except.ok false := by
  unfold check_duplicate
  rw [hdt]
  simp only [Except.ok.injEq]
  rw [List.any_eq_false]
  intro r hr
  simp [h r hr]

theorem discard_step_db (s : Scan) (m : Option (String × Int)) :
    (discard_step s m).db = s.db := by
  rcases m with _ | ⟨base, pno⟩
  · rfl
  · simp only [discard_step]
    rcases hf : List.filter (openDiscard (base ++ ".pdf") pno) s.db.discards with _ | ⟨a, tl⟩
    · rfl
    · by_cases h1 : s.failedRules ≠ [] <;> by_cases h2 : discardHasNull a <;>
        simp [h1, h2]

theorem discard_step_trace (s : Scan) (m : Option (String × Int)) :
    (discard_step s m).trace = s.trace := by
  rcases m with _ | ⟨base, pno⟩
  · rfl
  · simp only [discard_step]
    rcases hf : List.filter (openDiscard (base ++ ".pdf") pno) s.db.discards with _ | ⟨a, tl⟩
    · rfl
    · by_cases h1 : s.failedRules ≠ [] <;> by_cases h2 : discardHasNull a <;>
        simp [h1, h2]

theorem persist_step_failed (dbo : DbOutcome) (s : Scan) (h : s.failedRules ≠ []) :
    persist_step dbo s = s := by
  unfold persist_step
  rw [if_neg h]

theorem error_step_no_fail (dbo : DbOutcome) (s : Scan) (h : s.failedRules = []) :
    error_step dbo s = s := by
  unfold error_step
  rw [if_neg (by simp [h])]

theorem error_step_with_id (dbo : DbOutcome) (s : Scan) (hf : s.failedRules ≠ [])
    (hid : intOptTruthy s.delivery.id_warning_message = true) :
    error_step dbo s =
      { s with failedRules := [], trace := { s.trace with isolated := true } } := by
  unfold error_step
  rw [if_pos hf, if_pos hid]

theorem save_warning_deliveries (db : DB) (ok : Bool) (g : MsgGenre) :
    (save_warning db ok g).1.deliveries = db.deliveries := by
  unfold save_warning
  split <;> rfl

theorem save_warning_discards (db : DB) (ok : Bool) (g : MsgGenre) :
    (save_warning db ok g).1.discards = db.discards := by
  unfold save_warning
  split <;> rfl

theorem save_warning_gapView (db : DB) (ok : Bool) (g : MsgGenre) :
    (save_warning db ok g).1.gapView = db.gapView := by
  unfold save_warning
  split <;> rfl

theorem save_warning_warnings (db : DB) (ok : Bool) (g : MsgGenre) :
    (save_warning db ok g).1.warnings = db.warnings ++ (save_warning db ok g).2.2 := by
  unfold save_warning
  split <;> simp

theorem save_warning_genre (db : DB) (ok : Bool) (g : MsgGenre) :
    ∀ w ∈ (save_warning db ok g).2.2, w.genre = g := by
  unfold save_warning
  split <;> simp

theorem calculate_distance_delivery (cfg : Config) (d : Delivery) :
    ∃ dn, (calculate_distance cfg d).1 = { d with distance := dn } := by
  unfold calculate_distance
  split
  · split
    · split
      · exact ⟨_, rfl⟩
      · exact ⟨none, rfl⟩
    · exact ⟨d.distance, (delivery_set_distance_self d).symm⟩
  · exact ⟨d.distance, (delivery_set_distance_self d).symm⟩

theorem distance_step_ok (cfg : Config) (s : Scan) (c : String)
    (hc : s.delivery.delivery_city = some c) :
    ∃ s' dnew, distance_step cfg s = Except.ok s' ∧
      s'.db = s.db ∧ s'.failedRules = s.failedRules ∧
      s'.delivery = { s.delivery with distance := dnew } ∧
      s'.trace.insertedDeliveries = s.trace.insertedDeliveries ∧
      s'.trace.insertedWarnings = s.trace.insertedWarnings ∧
      s'.trace.insertedDiscards = s.trace.insertedDiscards ∧
      s'.trace.warningUpdates = s.trace.warningUpdates ∧
      s'.trace.isolated = s.trace.isolated := by
  unfold distance_step
  by_cases h1 : ratOptTruthy s.delivery.distance
  · rw [if_pos h1]
    exact ⟨s, s.delivery.distance, rfl, rfl, rfl,
           (delivery_set_distance_self s.delivery).symm, rfl, rfl, rfl, rfl, rfl⟩
  · rw [if_neg h1]
    simp only [hc]
    by_cases h2 : (distinctDistances s.db c).length = 1
    · rw [if_pos h2]
      exact ⟨_, _, rfl, rfl, rfl, rfl, rfl, rfl, rfl, rfl, rfl⟩
    · rw [if_neg h2]
      obtain ⟨dn, hdn⟩ := calculate_distance_delivery cfg s.delivery
      rw [hc] at hdn
      exact ⟨_, dn, rfl, rfl, rfl, hdn, rfl, rfl, rfl, rfl, rfl⟩

theorem warnGate_deliveries (cond : Bool) (db : DB) (ok : Bool) (tr : Trace) :
    (warnGate cond db ok tr).1.deliveries = db.deliveries := by
  unfold warnGate
  split <;> simp [save_warning_deliveries]

theorem warnGate_discards (cond : Bool) (db : DB) (ok : Bool) (tr : Trace) :
    (warnGate cond db ok tr).1.discards = db.discards := by
  unfold warnGate
  split <;> simp [save_warning_discards]

theorem warnGate_gapView (cond : Bool) (db : DB) (ok : Bool) (tr : Trace) :
    (warnGate cond db ok tr).1.gapView = db.gapView := by
  unfold warnGate
  split <;> simp [save_warning_gapView]

theorem warnGate_warnings (cond : Bool) (db : DB) (ok : Bool) (tr : Trace)
    (db0 : List WarningRow) (h : db.warnings = db0 ++ tr.insertedWarnings) :
    (warnGate cond db ok tr).1.warnings =
      db0 ++ (warnGate cond db ok tr).2.insertedWarnings := by
  unfold warnGate
  split
  · simp [save_warning_warnings, h, List.append_assoc]
  · exact h

theorem warnGate_genre (cond : Bool) (db : DB) (ok : Bool) (tr : Trace)
    (h : ∀ w ∈ tr.insertedWarnings, w.genre = MsgGenre.WARNING) :
    ∀ w ∈ (warnGate cond db ok tr).2.insertedWarnings, w.genre = MsgGenre.WARNING := by
  unfold warnGate
  split
  · intro w hw
    simp only [List.mem_append] at hw
    rcases hw with hw | hw
    · exact h w hw
    · exact save_warning_genre db ok MsgGenre.WARNING w hw
  · exact h

theorem warnGate_rest (cond : Bool) (db : DB) (ok : Bool) (tr : Trace) :
    (warnGate cond db ok tr).2.insertedDeliveries = tr.insertedDeliveries ∧
    (warnGate cond db ok tr).2.insertedDiscards = tr.insertedDiscards ∧
    (warnGate cond db ok tr).2.warningUpdates = tr.warningUpdates ∧
    (warnGate cond db ok tr).2.geocodeCalls = tr.geocodeCalls ∧
    (warnGate cond db ok tr).2.routeCalls = tr.routeCalls ∧
    (warnGate cond db ok tr).2.slept = tr.slept ∧
    (warnGate cond db ok tr).2.isolated = tr.isolated := by
  unfold warnGate
  split <;> simp

theorem warnGate_false (db : DB) (ok : Bool) (tr : Trace) :
    warnGate false db ok tr = (db, tr) := rfl

theorem vehicle_warnings_facts (cfg : Config) (dbo : DbOutcome) (dvehicle : String)
    (vd : Option String) (db : DB) :
    (vehicle_warnings cfg dbo dvehicle vd db).1.deliveries = db.deliveries ∧
    (vehicle_warnings cfg dbo dvehicle vd db).1.discards = db.discards ∧
    (vehicle_warnings cfg dbo dvehicle vd db).1.gapView = db.gapView ∧
    (vehicle_warnings cfg dbo dvehicle vd db).1.warnings =
      db.warnings ++ (vehicle_warnings cfg dbo dvehicle vd db).2.insertedWarnings ∧
    (∀ w ∈ (vehicle_warnings cfg dbo dvehicle vd db).2.insertedWarnings,
      w.genre = MsgGenre.WARNING) ∧
    (vehicle_warnings cfg dbo dvehicle vd db).2.insertedDeliveries = [] ∧
    (vehicle_warnings cfg dbo dvehicle vd db).2.insertedDiscards = [] ∧
    (vehicle_warnings cfg dbo dvehicle vd db).2.warningUpdates = [] ∧
    (vehicle_warnings cfg dbo dvehicle vd db).2.geocodeCalls = [] ∧
    (vehicle_warnings cfg dbo dvehicle vd db).2.routeCalls = [] ∧
    (vehicle_warnings cfg dbo dvehicle vd db).2.slept = false ∧
    (vehicle_warnings cfg dbo dvehicle vd db).2.isolated = false := by
  unfold vehicle_warnings
  obtain ⟨r1, r2, r3, r4, r5, r6, r7⟩ := warnGate_rest
    (!decide (dvehicle ∈ vehiclesEnum cfg.members)) db dbo.insertWarningOk Trace.empty
  obtain ⟨q1, q2, q3, q4, q5, q6, q7⟩ := warnGate_rest
    (!optMem vd (driversEnum cfg.members))
    (warnGate (!decide (dvehicle ∈ vehiclesEnum cfg.members)) db
      dbo.insertWarningOk Trace.empty).1 dbo.insertWarningOk
    (warnGate (!decide (dvehicle ∈ vehiclesEnum cfg.members)) db
      dbo.insertWarningOk Trace.empty).2
  refine ⟨?_, ?_, ?_, ?_, ?_, ?_, ?_, ?_, ?_, ?_, ?_, ?_⟩
  · rw [warnGate_deliveries, warnGate_deliveries]
  · rw [warnGate_discards, warnGate_discards]
  · rw [warnGate_gapView, warnGate_gapView]
  · refine warnGate_warnings _ _ _ _ db.warnings ?_
    refine warnGate_warnings _ _ _ _ db.warnings ?_
    simp [Trace.empty]
  · refine warnGate_genre _ _ _ _ ?_
    refine warnGate_genre _ _ _ _ ?_
    simp [Trace.empty]
  · rw [q1, r1]
    rfl
  · rw [q2, r2]
    rfl
  · rw [q3, r3]
    rfl
  · rw [q4, r4]
    rfl
  · rw [q5, r5]
    rfl
  · rw [q6, r6]
    rfl
  · rw [q7, r7]
    rfl

theorem vehicle_warnings_none (cfg : Config) (dbo : DbOutcome) (dvehicle : String)
    (vd : Option String) (db : DB)
    (hv : dvehicle ∈ vehiclesEnum cfg.members)
    (hd : optMem vd (driversEnum cfg.members) = true) :
    vehicle_warnings cfg dbo dvehicle vd db = (db, Trace.empty) := by
  unfold vehicle_warnings
  have h1 : (!decide (dvehicle ∈ vehiclesEnum cfg.members)) = false := by simp [hv]
  rw [h1, warnGate_false, hd, Bool.not_true, warnGate_false]

theorem vehicle_step_ok (cfg : Config) (dbo : DbOutcome)
    (vt : Option (String × Option String)) (db : DB) (d : Delivery)
    (f : List String) (s : Scan)
    (h : vehicle_step cfg dbo vt db d f = Except.ok s) :
    s.db.deliveries = db.deliveries ∧ s.db.discards = db.discards ∧
    s.db.gapView = db.gapView ∧
    s.db.warnings = db.warnings ++ s.trace.insertedWarnings ∧
    (∀ w ∈ s.trace.insertedWarnings, w.genre = MsgGenre.WARNING) ∧
    s.trace.insertedDeliveries = [] ∧ s.trace.insertedDiscards = [] ∧
    s.trace.warningUpdates = [] ∧ s.trace.geocodeCalls = [] ∧
    s.trace.routeCalls = [] ∧ s.trace.slept = false ∧ s.trace.isolated = false ∧
    (∃ v' dr', s.delivery = { d with vehicle := v', vehicle_driver := dr' }) ∧
    (s.failedRules = f ∨ s.failedRules = f ++ ["PATTERN_VEHICLE"]) := by
  unfold vehicle_step at h
  split at h
  · injection h with h'
    subst h'
    exact ⟨rfl, rfl, rfl, by simp [Trace.empty], by simp [Trace.empty], rfl, rfl,
           rfl, rfl, rfl, rfl, rfl, ⟨d.vehicle, d.vehicle_driver, rfl⟩, Or.inr rfl⟩
  · split at h
    · exact absurd h (by simp)
    · split at h
      · exact absurd h (by simp)
      · injection h with h'
        subst h'
        obtain ⟨f1, f2, f3, f4, f5, f6, f7, f8, f9, f10, f11, f12⟩ :=
          vehicle_warnings_facts cfg dbo _ _ db
        exact ⟨f1, f2, f3, f4, f5, f6, f7, f8, f9, f10, f11, f12,
               ⟨_, _, rfl⟩, Or.inl rfl⟩

theorem extract_fields_base (extr : PageExtract) (src : String) (pg : Int) (ts : Nat) :
    (extract_fields extr src pg ts).1.id_warning_message = none ∧
    (extract_fields extr src pg ts).1.distance = none ∧
    (extract_fields extr src pg ts).1.document_source = src ∧
    (extract_fields extr src pg ts).1.page_number = pg ∧
    (extract_fields extr src pg ts).1.recording_date = ts := by
  obtain ⟨dn, cdx, csx, q, vt⟩ := extr
  rcases dn with _ | ⟨n, g, dt⟩ <;> rcases cdx with _ | ⟨comp, city⟩ <;>
    rcases csx with _ | ⟨comp2, city2⟩ <;> rcases q with _ | qv <;>
    simp [extract_fields, blankDelivery]

theorem extract_page_ok (cfg : Config) (dbo : DbOutcome) (extr : PageExtract)
    (src : String) (pg : Int) (ts : Nat) (db : DB) (s : Scan)
    (h : extract_page cfg dbo extr src pg ts db = Except.ok s) :
    s.db.deliveries = db.deliveries ∧ s.db.discards = db.discards ∧
    s.db.gapView = db.gapView ∧
    s.db.warnings = db.warnings ++ s.trace.insertedWarnings ∧
    (∀ w ∈ s.trace.insertedWarnings, w.genre = MsgGenre.WARNING) ∧
    s.trace.insertedDeliveries = [] ∧ s.trace.insertedDiscards = [] ∧
    s.trace.warningUpdates = [] ∧ s.trace.geocodeCalls = [] ∧
    s.trace.routeCalls = [] ∧ s.trace.slept = false ∧ s.trace.isolated = false ∧
    s.delivery.id_warning_message = none ∧ s.delivery.distance = none ∧
    s.delivery.document_source = src ∧ s.delivery.page_number = pg ∧
    s.delivery.recording_date = ts := by
  unfold extract_page at h
  obtain ⟨f1, f2, f3, f4, f5, f6, f7, f8, f9, f10, f11, f12, ⟨v', dr', hd⟩, _⟩ :=
    vehicle_step_ok cfg dbo extr.vehicle db _ _ s h
  obtain ⟨b1, b2, b3, b4, b5⟩ := extract_fields_base extr src pg ts
  refine ⟨f1, f2, f3, f4, f5, f6, f7, f8, f9, f10, f11, f12, ?_, ?_, ?_, ?_, ?_⟩ <;>
    rw [hd] <;> simpa using by assumption

theorem extract_page_no_warn (cfg : Config) (dbo : DbOutcome) (extr : PageExtract)
    (vRaw : String) (drRaw : Option String)
    (src : String) (pg : Int) (ts : Nat) (db : DB) (s : Scan)
    (h : extract_page cfg dbo extr src pg ts db = Except.ok s)
    (hvt : extr.vehicle = some (vRaw, drRaw))
    (hv : ∀ x, s.delivery.vehicle = some x → x ∈ vehiclesEnum cfg.members)
    (hdr : optMem s.delivery.vehicle_driver (driversEnum cfg.members) = true) :
    s.db = db ∧ s.trace = Trace.empty := by
  unfold extract_page at h
  rw [hvt] at h
  simp only [vehicle_step] at h
  split at h
  · exact absurd h (by simp)
  · split at h
    · exact absurd h (by simp)
    · injection h with h'
      subst h'
      rw [vehicle_warnings_none cfg dbo _ _ db (hv _ rfl) hdr]
      exact ⟨rfl, rfl⟩

theorem gap_step_ok (s : Scan) (dt : Date)
    (hdt : s.delivery.document_date = some dt) :
    ∃ s', gap_step s = Except.ok s' ∧ s'.delivery = s.delivery ∧
      s'.failedRules = s.failedRules ∧
      s'.db.deliveries = s.db.deliveries ∧ s'.db.discards = s.db.discards ∧
      s'.db.gapView = s.db.gapView ∧
      s'.db.warnings.length = s.db.warnings.length ∧
      s'.trace.insertedDeliveries = s.trace.insertedDeliveries ∧
      s'.trace.insertedWarnings = s.trace.insertedWarnings ∧
      s'.trace.insertedDiscards = s.trace.insertedDiscards ∧
      s'.trace.geocodeCalls = s.trace.geocodeCalls ∧
      s'.trace.routeCalls = s.trace.routeCalls ∧
      s'.trace.slept = s.trace.slept ∧
      s'.trace.isolated = s.trace.isolated ∧
      (∃ extra, s'.trace.warningUpdates = s.trace.warningUpdates ++ extra) ∧
      (∀ i, warningsResolved s.db i → warningsResolved s'.db i) := by
  simp only [gap_step, hdt]
  cases hfil : s.db.gapView.filter (fun g =>
      (match s.delivery.document_number with
       | some n => g.document_number == n
       | none => false) && g.document_year == dt.year) with
  | nil =>
    exact ⟨s, rfl, rfl, rfl, rfl, rfl, rfl, rfl, rfl, rfl, rfl, rfl, rfl, rfl,
           rfl, ⟨[], by simp⟩, fun i hi => hi⟩
  | cons g gs =>
    refine ⟨_, rfl, rfl, rfl, update_warning_deliveries s.db g.id,
            update_warning_discards s.db g.id, update_warning_gapView s.db g.id,
            update_warning_length s.db g.id, rfl, rfl, rfl, rfl, rfl, rfl, rfl,
            ⟨[g.id], rfl⟩,
            fun i hi => update_warning_resolved_mono s.db i g.id hi⟩

/-- C8: within the distance part of the page step, the 1.5-second delay
fires exactly when the delivery has no truthy distance yet and the
QUERY_GET_DISTANCE lookup misses (its DISTINCT row count is not 1); it
never fires on a cache hit, and it fires on every miss regardless of
whether the external geocoding call succeeds, fails, or is not made. -/
theorem C8_sleep_iff_cache_miss (cfg : Config) (scan : Scan) (c : String)
    (hc : scan.delivery.delivery_city = some c)
    (ht : scan.trace.slept = false) :
    ∃ s', distance_step cfg scan = Except.ok s' ∧
      (s'.trace.slept = true ↔
        (ratOptTruthy scan.delivery.distance = false ∧
         (distinctDistances scan.db c).length ≠ 1)) := by
  unfold distance_step
  by_cases h1 : ratOptTruthy scan.delivery.distance
  · rw [if_pos h1]
    exact ⟨scan, rfl, by simp [ht, h1]⟩
  · rw [if_neg h1]
    simp only [hc]
    by_cases h2 : (distinctDistances scan.db c).length = 1
    · rw [if_pos h2]
      exact ⟨_, rfl, by simp [ht, h2]⟩
    · rw [if_neg h2]
      refine ⟨_, rfl, ?_⟩
      simp only [Bool.not_eq_true] at h1
      simp [h1, h2]

/-- C9 (amended): on a cache miss with a truthy city, distance resolution
geocodes exactly the delivery city, with default country IT; the departure
coordinates are read from the configuration and never geocoded; when the
city geocoding succeeds, one driving route is requested from the configured
departure coordinates to the city coordinates and the distance becomes the
route meters divided by 1000 (none when routing fails); when the city
geocoding fails, the distance becomes none and no route is requested; no
failure is ever raised to the caller. -/
theorem C9_distance_resolution (cfg : Config) (d : Delivery) (c : String)
    (hc : d.delivery_city = some c) (hne : c ≠ "") :
    (calculate_distance cfg d).2.1 = [(c, "IT")] ∧
    (∀ dest, geo_search cfg.svc c "IT" = some dest →
      (calculate_distance cfg d).1.distance =
        geo_distance_from_coords cfg.svc cfg.departure_coords dest ∧
      (calculate_distance cfg d).2.2 = [(cfg.departure_coords, dest)]) ∧
    (geo_search cfg.svc c "IT" = none →
      (calculate_distance cfg d).1.distance = none ∧
      (calculate_distance cfg d).2.2 = []) := by
  simp only [calculate_distance, hc]
  rw [if_pos hne]
  cases hg : geo_search cfg.svc c "IT" with
  | some dest =>
    refine ⟨rfl, ?_, ?_⟩
    · intro dest2 hd2
      injection hd2 with he
      subst he
      exact ⟨rfl, rfl⟩
    · intro hn
      cases hn
  | none =>
    refine ⟨rfl, ?_, fun _ => ⟨rfl, rfl⟩⟩
    intro dest2 hd2
    cases hd2

/-- C5: for a page whose vehicle rule matched, with a raw driver token
outside the canonical driver list: a token equal to the raw vehicle token,
contained in the canonical vehicle list, or equal to the resolved vehicle is
discarded and replaced by the roster driver of the resolved vehicle;
otherwise similarity resolution runs and its result is accepted exactly when
it differs from the raw token, the roster driver of the resolved vehicle
being used when resolution left the token unchanged. -/
theorem C5_driver_resolution (sim : String → String → Rat) (members : List Member)
    (vehicle : String) (dvehicle : Option String) (d : String)
    (hd0 : d ≠ "") (hnot : d ∉ driversEnum members)
    (hdv : dvehicle = some vehicle ∨ ∃ w ∈ vehiclesEnum members, dvehicle = some w) :
    ((d = vehicle ∨ d ∈ vehiclesEnum members ∨ some d = dvehicle) →
      resolve_driver sim members vehicle dvehicle (some d) =
        Except.ok (rosterDriver members dvehicle)) ∧
    (¬(d = vehicle ∨ d ∈ vehiclesEnum members) →
      ∀ c, check_similarity sim d (driversEnum members) = some c →
        ((c ≠ d → resolve_driver sim members vehicle dvehicle (some d) =
            Except.ok (some c)) ∧
         (c = d → resolve_driver sim members vehicle dvehicle (some d) =
            Except.ok (rosterDriver members dvehicle)))) := by
  have hmem : optMem (some d) (driversEnum members) = false := by
    simp [optMem, hnot]
  constructor
  · intro hdisc
    have hcond : d = vehicle ∨ d ∈ vehiclesEnum members := by
      rcases hdisc with h | h | h
      · exact Or.inl h
      · exact Or.inr h
      · rcases hdv with h2 | ⟨w, hw, h2⟩
        · rw [h2] at h
          injection h with h3
          exact Or.inl h3
        · rw [h2] at h
          injection h with h3
          exact Or.inr (h3 ▸ hw)
    have hd1 : discardVehicleLike vehicle (vehiclesEnum members) (some d) = none := by
      simp [discardVehicleLike, hcond]
    unfold resolve_driver
    rw [hmem]
    simp only [Bool.false_eq_true, if_false]
    rw [hd1]
    simp [driver_calc, strOptTruthy]
  · intro hncond c hsim
    have hd1 : discardVehicleLike vehicle (vehiclesEnum members) (some d) = some d := by
      simp only [discardVehicleLike]
      rw [if_neg hncond]
    have hdc : driver_calc sim (driversEnum members) (some d) = Except.ok (some c) := by
      unfold driver_calc
      rw [show strOptTruthy (some d) = true from by simp [strOptTruthy, hd0]]
      simp only [if_true]
      rw [hsim]
    have hstep : resolve_driver sim members vehicle dvehicle (some d) =
        (if strOptTruthy (some d) ∧ (some d : Option String) ≠ some c
         then Except.ok (some c)
         else Except.ok (rosterDriver members dvehicle)) := by
      unfold resolve_driver
      rw [hmem]
      simp only [Bool.false_eq_true, if_false]
      rw [hd1, hdc]
    constructor
    · intro hcd
      rw [hstep, if_pos ?_]
      refine ⟨by simp [strOptTruthy, hd0], by simp [Ne.symm hcd]⟩
    · intro hcd
      subst hcd
      rw [hstep, if_neg ?_]
      simp

/-- C1 (amended): a page that duplicates an existing record (same
document_source and page_number, or same document_number, document_genre and
document_date year) and has no extraction failure is marked failed with
reason CHECK_DUPLICATE, gets the sentinel -1 as id_warning_message, is
isolated and counted as discarded, and persists no second DeliveryRecord,
no new DiscardRecord, and no new WarningMessage other than the WARNING-genre
similarity messages already emitted while extracting the vehicle and driver
(in particular none at all when those resolve into their canonical sets). -/
theorem C1_duplicate_page (cfg : Config) (dbo : DbOutcome) (inp : PageInput)
    (db : DB) (s1 : Scan) (dt : Date)
    (h1 : extract_page cfg dbo inp.extr inp.srcName inp.pageNumber
      inp.recordingDate db = Except.ok s1)
    (h2 : s1.failedRules = [])
    (hdm : inp.discardMatch = none)
    (hdt : s1.delivery.document_date = some dt)
    (hdup : ∃ row ∈ s1.db.deliveries, dupMatch row s1.delivery dt.year = true) :
    ∃ r, processPage cfg dbo inp db = Except.ok r ∧
      r.failedRules = ["CHECK_DUPLICATE"] ∧
      r.delivery.id_warning_message = some (-1) ∧
      r.db.deliveries = db.deliveries ∧
      r.trace.insertedDeliveries = [] ∧
      r.db.discards = db.discards ∧
      r.trace.insertedDiscards = [] ∧
      r.trace.insertedWarnings = s1.trace.insertedWarnings ∧
      (∀ w ∈ r.trace.insertedWarnings, w.genre = MsgGenre.WARNING) ∧
      r.db.warnings.length = db.warnings.length + s1.trace.insertedWarnings.length ∧
      r.trace.isolated = true ∧ r.discardedDelta = 1 := by
  obtain ⟨f1, f2, f3, f4, f5, f6, f7, f8, f9, f10, f11, f12, fid, fdist,
          fsrc, fpg, fts⟩ := extract_page_ok cfg dbo _ _ _ _ db s1 h1
  have hcd : check_duplicate s1.db s1.delivery = Except.ok true :=
    check_duplicate_true _ _ dt hdt hdup
  have hdds : dup_distance_step cfg s1 = Except.ok
      { s1 with
          failedRules := ["CHECK_DUPLICATE"],
          delivery := { s1.delivery with id_warning_message := some (-1) } } := by
    unfold dup_distance_step
    rw [if_pos h2, hcd]
  have hps : persist_step dbo
      { s1 with
          failedRules := ["CHECK_DUPLICATE"],
          delivery := { s1.delivery with id_warning_message := some (-1) } } =
      { s1 with
          failedRules := ["CHECK_DUPLICATE"],
          delivery := { s1.delivery with id_warning_message := some (-1) } } :=
    persist_step_failed dbo _ (by simp)
  have hes : error_step dbo
      { s1 with
          failedRules := ["CHECK_DUPLICATE"],
          delivery := { s1.delivery with id_warning_message := some (-1) } } =
      { s1 with
          failedRules := [],
          delivery := { s1.delivery with id_warning_message := some (-1) },
          trace := { s1.trace with isolated := true } } :=
    error_step_with_id dbo _ (by simp) (by simp [intOptTruthy])
  have hdt5 : ({ s1 with
      failedRules := [],
      delivery := { s1.delivery with id_warning_message := some (-1) },
      trace := { s1.trace with isolated := true } } : Scan).delivery.document_date =
      some dt := hdt
  obtain ⟨s6, hg, g1, g2, g3, g4, g5, g6, g7, g8, g9, g10, g11, g12, g13, gupd, gres⟩ :=
    gap_step_ok _ dt hdt5
  refine ⟨⟨s6.db, s6.delivery, ["CHECK_DUPLICATE"], s6.trace, 1⟩, ?_, rfl, ?_, ?_,
          ?_, ?_, ?_, ?_, ?_, ?_, ?_, rfl⟩
  · simp only [processPage, h1, hdm, discard_step, hdds, hps, hes, hg]
    simp
  · rw [g1]
  · rw [g3]
    exact f1
  · rw [g7]
    exact f6
  · rw [g4]
    exact f2
  · rw [g9]
    exact f7
  · rw [g8]
  · rw [g8]
    exact f5
  · rw [g6]
    simp [f4]
  · rw [g13]

/-- C3 (amended): on a page where all four pattern rules succeed, the
resolved vehicle and driver both lie in their canonical sets, no duplicate
exists and the delivery insert succeeds, exactly one DeliveryRecord is
persisted, no WarningMessage of any genre is created, no DiscardRecord is
written, and the page is neither isolated nor counted as discarded. -/
theorem C3_clean_page (cfg : Config) (dbo : DbOutcome) (inp : PageInput)
    (db : DB) (s1 : Scan) (dt : Date) (c : String) (vRaw : String)
    (drRaw : Option String)
    (h1 : extract_page cfg dbo inp.extr inp.srcName inp.pageNumber
      inp.recordingDate db = Except.ok s1)
    (h2 : s1.failedRules = [])
    (hdm : inp.discardMatch = none)
    (hvt : inp.extr.vehicle = some (vRaw, drRaw))
    (hv : ∀ x, s1.delivery.vehicle = some x → x ∈ vehiclesEnum cfg.members)
    (hdr : optMem s1.delivery.vehicle_driver (driversEnum cfg.members) = true)
    (hdt : s1.delivery.document_date = some dt)
    (hc : s1.delivery.delivery_city = some c)
    (hnodup : ∀ row ∈ db.deliveries, dupMatch row s1.delivery dt.year = false)
    (hins : dbo.insertDeliveryOk = true) :
    ∃ r, processPage cfg dbo inp db = Except.ok r ∧
      r.trace.insertedDeliveries.length = 1 ∧
      r.db.deliveries = db.deliveries ++ r.trace.insertedDeliveries ∧
      r.trace.insertedWarnings = [] ∧
      r.db.warnings.length = db.warnings.length ∧
      r.trace.insertedDiscards = [] ∧ r.db.discards = db.discards ∧
      r.failedRules = [] ∧ r.trace.isolated = false ∧ r.discardedDelta = 0 := by
  obtain ⟨hdb, htr⟩ := extract_page_no_warn cfg dbo _ vRaw drRaw _ _ _ db s1 h1 hvt hv hdr
  obtain ⟨f1, f2, f3, f4, f5, f6, f7, f8, f9, f10, f11, f12, fid, fdist,
          fsrc, fpg, fts⟩ := extract_page_ok cfg dbo _ _ _ _ db s1 h1
  have hcd : check_duplicate s1.db s1.delivery = Except.ok false :=
    check_duplicate_false _ _ dt hdt (by rw [hdb]; exact hnodup)
  obtain ⟨s3, dnew, hds, e1, e2, e3, e4, e5, e6, e7, e8⟩ := distance_step_ok cfg s1 c hc
  have hdds : dup_distance_step cfg s1 = Except.ok s3 := by
    unfold dup_distance_step
    rw [if_pos h2, hcd]
    exact hds
  have hfr3 : s3.failedRules = [] := e2.trans h2
  have hid3 : s3.delivery.id_warning_message = none := by
    rw [e3]
    exact fid
  have hps : persist_step dbo s3 =
      { s3 with
          db := { s3.db with
            deliveries := s3.db.deliveries ++ [deliveryRowOf s3.delivery] },
          trace := { s3.trace with
            insertedDeliveries :=
              s3.trace.insertedDeliveries ++ [deliveryRowOf s3.delivery] } } := by
    unfold persist_step
    rw [if_pos hfr3, hins, if_pos rfl, hid3]
    rw [if_neg (by simp [intOptTruthy])]
  have hes : error_step dbo
      ({ s3 with
          db := { s3.db with
            deliveries := s3.db.deliveries ++ [deliveryRowOf s3.delivery] },
          trace := { s3.trace with
            insertedDeliveries :=
              s3.trace.insertedDeliveries ++ [deliveryRowOf s3.delivery] } } : Scan) =
      { s3 with
          db := { s3.db with
            deliveries := s3.db.deliveries ++ [deliveryRowOf s3.delivery] },
          trace := { s3.trace with
            insertedDeliveries :=
              s3.trace.insertedDeliveries ++ [deliveryRowOf s3.delivery] } } :=
    error_step_no_fail dbo _ hfr3
  have hdt4 : ({ s3 with
      db := { s3.db with
        deliveries := s3.db.deliveries ++ [deliveryRowOf s3.delivery] },
      trace := { s3.trace with
        insertedDeliveries :=
          s3.trace.insertedDeliveries ++ [deliveryRowOf s3.delivery] } } :
      Scan).delivery.document_date = some dt := by
    show s3.delivery.document_date = some dt
    rw [e3]
    exact hdt
  obtain ⟨s6, hg, g1, g2, g3, g4, g5, g6, g7, g8, g9, g10, g11, g12, g13, gupd, gres⟩ :=
    gap_step_ok _ dt hdt4
  refine ⟨⟨s6.db, s6.delivery, s3.failedRules, s6.trace, 0⟩, ?_, ?_, ?_, ?_, ?_,
          ?_, ?_, hfr3, ?_, rfl⟩
  · simp only [processPage, h1, hdm, discard_step, hdds, hps, hes, hg]
    rw [hfr3]
    simp
  · rw [g7]
    show (s3.trace.insertedDeliveries ++ [deliveryRowOf s3.delivery]).length = 1
    rw [e4, htr]
    rfl
  · rw [g3, g7]
    show s3.db.deliveries ++ [deliveryRowOf s3.delivery] =
      db.deliveries ++ (s3.trace.insertedDeliveries ++ [deliveryRowOf s3.delivery])
    rw [e4, htr, e1, hdb]
    rfl
  · rw [g8]
    show s3.trace.insertedWarnings = []
    rw [e5, htr]
    rfl
  · rw [g6]
    show s3.db.warnings.length = db.warnings.length
    rw [e1, hdb]
  · rw [g9]
    show s3.trace.insertedDiscards = []
    rw [e6, htr]
    rfl
  · rw [g4]
    show s3.db.discards = db.discards
    rw [e1, hdb]
  · rw [g13]
    show s3.trace.isolated = false
    rw [e8, htr]
    rfl

/-- C2 (amended): for a page of a file matching the isolated-page pattern,
with an open DiscardRecord for its source page and at least one extraction
failure: when the discard row has no null fields, a nonzero stored distance
(a zero distance is falsy in Python and would be re-resolved) and a nonzero
warning id, and no duplicate exists and the insert succeeds, the discard
fields are copied onto the record, the failure set is cleared, a
DeliveryRecord with exactly those field values is persisted, and the
discard warning message is flipped to resolved; when the discard row has a
null field, the page stays failed, reuses the discard warning id, and
neither a second WarningMessage nor a new DiscardRecord is created. -/
theorem C2_discard_roundtrip (cfg : Config) (dbo : DbOutcome) (inp : PageInput)
    (db : DB) (s1 : Scan) (base : String) (pno : Int) (discard : DiscardRow)
    (rest : List DiscardRow)
    (h1 : extract_page cfg dbo inp.extr inp.srcName inp.pageNumber
      inp.recordingDate db = Except.ok s1)
    (h2 : s1.failedRules ≠ [])
    (hdm : inp.discardMatch = some (base, pno))
    (hfil : List.filter (openDiscard (base ++ ".pdf") pno) s1.db.discards =
      discard :: rest) :
    ((∀ dA : Date, discardHasNull discard = false →
      discard.document_date = some dA →
      ratOptTruthy discard.distance = true →
      discard.id_warning_message ≠ 0 →
      (∀ row ∈ s1.db.deliveries,
        dupMatch row (chargeFromDiscard s1.delivery discard) dA.year = false) →
      dbo.insertDeliveryOk = true →
      ∃ r, processPage cfg dbo inp db = Except.ok r ∧
        r.trace.insertedDeliveries =
          [deliveryRowOf (chargeFromDiscard s1.delivery discard)] ∧
        (deliveryRowOf (chargeFromDiscard s1.delivery discard)).document_number =
          discard.document_number ∧
        (deliveryRowOf (chargeFromDiscard s1.delivery discard)).document_genre =
          discard.document_genre ∧
        (deliveryRowOf (chargeFromDiscard s1.delivery discard)).document_date =
          discard.document_date ∧
        (deliveryRowOf (chargeFromDiscard s1.delivery discard)).company_name =
          discard.company_name ∧
        (deliveryRowOf (chargeFromDiscard s1.delivery discard)).delivery_city =
          discard.delivery_city ∧
        (deliveryRowOf (chargeFromDiscard s1.delivery discard)).quantity =
          discard.quantity ∧
        (deliveryRowOf (chargeFromDiscard s1.delivery discard)).delivery_date =
          discard.delivery_date ∧
        (deliveryRowOf (chargeFromDiscard s1.delivery discard)).vehicle =
          discard.vehicle ∧
        (deliveryRowOf (chargeFromDiscard s1.delivery discard)).vehicle_driver =
          discard.vehicle_driver ∧
        (deliveryRowOf (chargeFromDiscard s1.delivery discard)).distance =
          discard.distance ∧
        r.failedRules = [] ∧
        discard.id_warning_message ∈ r.trace.warningUpdates ∧
        warningsResolved r.db discard.id_warning_message ∧
        r.trace.insertedWarnings = s1.trace.insertedWarnings ∧
        r.trace.insertedDiscards = [] ∧
        r.trace.isolated = false ∧ r.discardedDelta = 0)) ∧
    (∀ (dtB : Date) (cB : String), discardHasNull discard = true →
      s1.delivery.document_date = some dtB →
      s1.delivery.delivery_city = some cB →
      discard.id_warning_message ≠ 0 →
      ∃ r, processPage cfg dbo inp db = Except.ok r ∧
        r.failedRules = s1.failedRules ∧
        r.delivery.id_warning_message = some discard.id_warning_message ∧
        r.trace.insertedWarnings = s1.trace.insertedWarnings ∧
        r.trace.insertedDiscards = [] ∧
        r.trace.insertedDeliveries = [] ∧
        r.trace.isolated = true ∧ r.discardedDelta = 1) := by
  obtain ⟨f1, f2, f3, f4, f5, f6, f7, f8, f9, f10, f11, f12, fid, fdist,
          fsrc, fpg, fts⟩ := extract_page_ok cfg dbo _ _ _ _ db s1 h1
  constructor
  · intro dA hnull hdA hdist hwid hdupA hins
    have hds2 : discard_step s1 (some (base, pno)) =
        { s1 with
            delivery := chargeFromDiscard s1.delivery discard,
            failedRules := [] } := by
      simp only [discard_step, hfil]
      rw [if_pos h2, if_neg (by rw [hnull]; exact Bool.false_ne_true)]
    have hcd : check_duplicate s1.db (chargeFromDiscard s1.delivery discard) =
        Except.ok false :=
      check_duplicate_false _ _ dA (by simp [chargeFromDiscard, hdA]) hdupA
    have hdds : dup_distance_step cfg
        ({ s1 with
            delivery := chargeFromDiscard s1.delivery discard,
            failedRules := [] } : Scan) =
        Except.ok { s1 with
            delivery := chargeFromDiscard s1.delivery discard,
            failedRules := [] } := by
      unfold dup_distance_step
      rw [if_pos rfl, hcd]
      unfold distance_step
      rw [if_pos (by simpa [chargeFromDiscard] using hdist)]
    have hidA : intOptTruthy (chargeFromDiscard s1.delivery discard).id_warning_message
        = true := by
      simp [chargeFromDiscard, intOptTruthy, hwid]
    have hps : persist_step dbo
        ({ s1 with
            delivery := chargeFromDiscard s1.delivery discard,
            failedRules := [] } : Scan) =
        { s1 with
            delivery := chargeFromDiscard s1.delivery discard,
            failedRules := [],
            db := update_warning { s1.db with deliveries := s1.db.deliveries ++ [deliveryRowOf (chargeFromDiscard s1.delivery discard)] } discard.id_warning_message,
            trace := { s1.trace with insertedDeliveries := s1.trace.insertedDeliveries ++ [deliveryRowOf (chargeFromDiscard s1.delivery discard)], warningUpdates := s1.trace.warningUpdates ++ [discard.id_warning_message] } } := by
      unfold persist_step
      rw [if_pos rfl, hins, if_pos rfl, if_pos hidA]
      rfl
    have hes : error_step dbo
        ({ s1 with
            delivery := chargeFromDiscard s1.delivery discard,
            failedRules := [],
            db := update_warning { s1.db with deliveries := s1.db.deliveries ++ [deliveryRowOf (chargeFromDiscard s1.delivery discard)] } discard.id_warning_message,
            trace := { s1.trace with insertedDeliveries := s1.trace.insertedDeliveries ++ [deliveryRowOf (chargeFromDiscard s1.delivery discard)], warningUpdates := s1.trace.warningUpdates ++ [discard.id_warning_message] } } : Scan) =
        { s1 with
            delivery := chargeFromDiscard s1.delivery discard,
            failedRules := [],
            db := update_warning { s1.db with deliveries := s1.db.deliveries ++ [deliveryRowOf (chargeFromDiscard s1.delivery discard)] } discard.id_warning_message,
            trace := { s1.trace with insertedDeliveries := s1.trace.insertedDeliveries ++ [deliveryRowOf (chargeFromDiscard s1.delivery discard)], warningUpdates := s1.trace.warningUpdates ++ [discard.id_warning_message] } } :=
      error_step_no_fail dbo _ rfl
    have hdt4 : ({ s1 with
        delivery := chargeFromDiscard s1.delivery discard,
        failedRules := [],
        db := update_warning { s1.db with deliveries := s1.db.deliveries ++ [deliveryRowOf (chargeFromDiscard s1.delivery discard)] } discard.id_warning_message,
        trace := { s1.trace with insertedDeliveries := s1.trace.insertedDeliveries ++ [deliveryRowOf (chargeFromDiscard s1.delivery discard)], warningUpdates := s1.trace.warningUpdates ++ [discard.id_warning_message] } } : Scan).delivery.document_date =
        some dA := by
      simp [chargeFromDiscard, hdA]
    obtain ⟨s6, hg, g1, g2, g3, g4, g5, g6, g7, g8, g9, g10, g11, g12, g13,
            gupd, gres⟩ := gap_step_ok _ dA hdt4
    refine ⟨⟨s6.db, s6.delivery, [], s6.trace, 0⟩, ?_, ?_, rfl, rfl, rfl, rfl,
            rfl, rfl, rfl, rfl, rfl, rfl, rfl, ?_, ?_, ?_, ?_, ?_, rfl⟩
    · simp only [processPage, h1, hdm, hds2, hdds, hps, hes, hg]
      simp
    · rw [g7]
      show s1.trace.insertedDeliveries ++
          [deliveryRowOf (chargeFromDiscard s1.delivery discard)] = _
      rw [f6]
      rfl
    · obtain ⟨extra, hex⟩ := gupd
      rw [hex]
      show discard.id_warning_message ∈
        (s1.trace.warningUpdates ++ [discard.id_warning_message]) ++ extra
      simp
    · exact gres _ (update_warning_resolved_self _ _)
    · rw [g8]
    · rw [g9]
      exact f7
    · rw [g13]
      exact f12
  · intro dtB cB hnull hdtB hcB hwid
    have hds2 : discard_step s1 (some (base, pno)) =
        { s1 with delivery := { s1.delivery with id_warning_message := some discard.id_warning_message } } := by
      simp only [discard_step, hfil]
      rw [if_pos h2, if_pos hnull]
    have hdds : dup_distance_step cfg
        ({ s1 with delivery := { s1.delivery with id_warning_message := some discard.id_warning_message } } : Scan) =
        distance_step cfg
          { s1 with delivery := { s1.delivery with id_warning_message := some discard.id_warning_message } } := by
      unfold dup_distance_step
      rw [if_neg h2]
    obtain ⟨s3, dnew, hds, e1, e2, e3, e4, e5, e6, e7, e8⟩ :=
      distance_step_ok cfg
        { s1 with delivery := { s1.delivery with id_warning_message := some discard.id_warning_message } } cB hcB
    have hfr3 : s3.failedRules = s1.failedRules := e2
    have hid3 : s3.delivery.id_warning_message = some discard.id_warning_message := by
      rw [e3]
    have hps : persist_step dbo s3 = s3 :=
      persist_step_failed dbo s3 (by rw [hfr3]; exact h2)
    have hes : error_step dbo s3 =
        { s3 with failedRules := [], trace := { s3.trace with isolated := true } } :=
      error_step_with_id dbo s3 (by rw [hfr3]; exact h2)
        (by rw [hid3]; simp [intOptTruthy, hwid])
    have hdt5 : ({ s3 with failedRules := [], trace := { s3.trace with isolated := true } } : Scan).delivery.document_date =
        some dtB := by
      show s3.delivery.document_date = some dtB
      rw [e3]
      exact hdtB
    obtain ⟨s6, hg, g1, g2, g3, g4, g5, g6, g7, g8, g9, g10, g11, g12, g13,
            gupd, gres⟩ := gap_step_ok _ dtB hdt5
    refine ⟨⟨s6.db, s6.delivery, s3.failedRules, s6.trace, 1⟩, ?_, hfr3, ?_, ?_,
            ?_, ?_, ?_, rfl⟩
    · simp only [processPage, h1, hdm, hds2, hdds, hds, hps, hes, hg]
      rw [show (if s3.failedRules = [] then (0 : Nat) else 1) = 1 from
        by rw [hfr3]; simp [h2]]
    · rw [g1]
      show s3.delivery.id_warning_message = some discard.id_warning_message
      exact hid3
    · rw [g8]
      show s3.trace.insertedWarnings = s1.trace.insertedWarnings
      rw [e5]
    · rw [g9]
      show s3.trace.insertedDiscards = _
      rw [e6]
      exact f7
    · rw [g7]
      show s3.trace.insertedDeliveries = _
      rw [e4]
      exact f6
    · rw [g13]

theorem distance_step_inv (cfg : Config) (s s' : Scan)
    (h : distance_step cfg s = Except.ok s') :
    s'.db = s.db ∧ s'.trace.insertedDeliveries = s.trace.insertedDeliveries := by
  unfold distance_step at h
  split at h
  · injection h with h'
    subst h'
    exact ⟨rfl, rfl⟩
  · split at h
    · cases h
    · split at h
      · injection h with h'
        subst h'
        exact ⟨rfl, rfl⟩
      · injection h with h'
        subst h'
        exact ⟨rfl, rfl⟩

theorem dup_distance_step_inv (cfg : Config) (s s' : Scan)
    (h : dup_distance_step cfg s = Except.ok s') :
    s'.db = s.db ∧ s'.trace.insertedDeliveries = s.trace.insertedDeliveries := by
  unfold dup_distance_step at h
  split at h
  · split at h
    · cases h
    · injection h with h'
      subst h'
      exact ⟨rfl, rfl⟩
    · exact distance_step_inv cfg s s' h
  · exact distance_step_inv cfg s s' h

theorem persist_step_inv (dbo : DbOutcome) (s : Scan) :
    ∃ X, (persist_step dbo s).db.deliveries = s.db.deliveries ++ X ∧
      (persist_step dbo s).trace.insertedDeliveries =
        s.trace.insertedDeliveries ++ X := by
  unfold persist_step
  split
  · split
    · split
      · exact ⟨[deliveryRowOf s.delivery], by simp [update_warning], by simp⟩
      · exact ⟨[deliveryRowOf s.delivery], by simp, by simp⟩
    · exact ⟨[], by simp, by simp⟩
  · exact ⟨[], by simp, by simp⟩

theorem error_step_inv (dbo : DbOutcome) (s : Scan) :
    (error_step dbo s).db.deliveries = s.db.deliveries ∧
    (error_step dbo s).trace.insertedDeliveries = s.trace.insertedDeliveries := by
  unfold error_step
  split
  · split
    · exact ⟨rfl, rfl⟩
    · split
      · exact ⟨by simp [save_warning_deliveries], by simp⟩
      · exact ⟨by simp [save_warning_deliveries], by simp⟩
  · exact ⟨rfl, rfl⟩

theorem gap_step_inv (s s' : Scan) (h : gap_step s = Except.ok s') :
    s'.db.deliveries = s.db.deliveries ∧
    s'.trace.insertedDeliveries = s.trace.insertedDeliveries := by
  unfold gap_step at h
  split at h
  · cases h
  · split at h
    · injection h with h'
      subst h'
      exact ⟨rfl, rfl⟩
    · injection h with h'
      subst h'
      exact ⟨update_warning_deliveries s.db _, rfl⟩

/-- Every delivery row the page step adds to the database is recorded in the
trace: the final delivery table is the initial one extended by exactly the
inserted rows of the trace. -/
theorem processPage_deliveries (cfg : Config) (dbo : DbOutcome) (inp : PageInput)
    (db : DB) (r : PageResult) (h : processPage cfg dbo inp db = Except.ok r) :
    r.db.deliveries = db.deliveries ++ r.trace.insertedDeliveries := by
  unfold processPage at h
  split at h
  · cases h
  · rename_i s1 heq1
    obtain ⟨f1, _, _, _, _, f6, _, _, _, _, _, _, _, _, _, _, _⟩ :=
      extract_page_ok cfg dbo _ _ _ _ db s1 heq1
    split at h
    · cases h
    · rename_i s3 heq3
      obtain ⟨d1, d2⟩ := dup_distance_step_inv cfg _ s3 heq3
      obtain ⟨X, p1, p2⟩ := persist_step_inv dbo s3
      obtain ⟨e1, e2⟩ := error_step_inv dbo (persist_step dbo s3)
      split at h
      · cases h
      · rename_i s6 heq6
        obtain ⟨g1, g2⟩ := gap_step_inv _ s6 heq6
        injection h with h'
        subst h'
        show s6.db.deliveries = db.deliveries ++ s6.trace.insertedDeliveries
        rw [g1, g2, e1, e2, p1, p2, d1, d2, discard_step_db, discard_step_trace,
            f1, f6]
        simp

/-! Concrete fixtures used by the closed evaluations below. -/

/-- A one-entry roster: vehicle V1234AB assigned to MARIO ROSSI. -/
def memW : List Member := [⟨some "V1234AB", some "MARIO ROSSI"⟩]

/-- A geocoding service on which every call fails. -/
def svcNone : GeoService := ⟨fun _ _ => none, fun _ _ => none⟩

/-- A geocoding service returning fixed coordinates and a 5000 m route. -/
def svcOk : GeoService := ⟨fun _ _ => some (1, 2), fun _ _ => some (mkRat 5000 1)⟩

/-- A configuration with the failing geocoder. -/
def cfgW : Config := ⟨memW, (7, 8), svcNone, simHalf⟩

/-- A configuration with the succeeding geocoder. -/
def cfgOk : Config := ⟨memW, (7, 8), svcOk, simHalf⟩

/-- A database outcome on which every insert succeeds. -/
def dboOk : DbOutcome := ⟨true, true, true⟩

/-- An empty database. -/
def dbEmpty : DB := ⟨[], [], [], [], 1⟩

/-- The document date 2024-03-10. -/
def dateW : Date := ⟨2024, 3, 10⟩

/-- A page on which all four pattern rules match and the vehicle and driver
tokens resolve verbatim into the canonical sets. -/
def extrFull : PageExtract :=
  ⟨some (145, "TA", dateW), some ("ACME", "Milano"), none, some 3200,
   some ("V1234AB", some "Mario Rossi")⟩

/-- The page input for extrFull on page 1 of a fresh working document. -/
def inpW : PageInput := ⟨extrFull, none, "2024_01_DDT_0001_0100.pdf", 1, 0⟩

/-- The Delivery that extraction produces for extrFull. -/
def deliveryW : Delivery :=
  ⟨some 145, some "TA", some dateW, some "ACME", some "MILANO", some 3200,
   some dateW, some "V1234AB", some "MARIO ROSSI", none,
   "2024_01_DDT_0001_0100.pdf", 1, 0, none⟩

/-- The extraction state for extrFull over a database db. -/
def s1W (db : DB) : Scan := ⟨db, deliveryW, [], Trace.empty⟩

/-- An existing delivery row occupying the same document_source and
page_number as inpW. -/
def rowExisting : DeliveryRow :=
  ⟨some 145, some "TA", some dateW, some "ACME", some "MILANO", some 3200,
   some dateW, some "V1234AB", some "MARIO ROSSI", none,
   "2024_01_DDT_0001_0100.pdf", 1, 0⟩

/-- A database already holding rowExisting. -/
def dbDup : DB := ⟨[rowExisting], [], [], [], 1⟩

/-- A page identical to extrFull except that its vehicle token ZZ000ZZ has
no similarity match and its driver group is absent. -/
def extrOdd : PageExtract :=
  ⟨some (145, "TA", dateW), some ("ACME", "Milano"), none, some 3200,
   some ("ZZ000ZZ", none)⟩

/-- The page input for extrOdd. -/
def inpOdd : PageInput := ⟨extrOdd, none, "2024_01_DDT_0001_0100.pdf", 1, 0⟩

/-- Counterexample to C1 as stated: a page that duplicates an existing
record, has no extraction failure, but carries the unresolvable vehicle
token ZZ000ZZ, is discarded with CHECK_DUPLICATE and the -1 sentinel and
persists no delivery and no discard row, yet two new WARNING-genre
WarningMessages are written during the vehicle and driver resolution, so
the page does not write zero new WarningMessages. -/
theorem C1_duplicate_page_cex :
    (processPage cfgW dboOk inpOdd dbDup).map (fun r =>
      (r.failedRules, r.delivery.id_warning_message,
       r.trace.insertedWarnings.map (fun w => w.genre),
       r.trace.insertedDeliveries.length, r.trace.insertedDiscards.length)) =
    Except.ok (["CHECK_DUPLICATE"], some (-1),
               [MsgGenre.WARNING, MsgGenre.WARNING], 0, 0) := rfl

/-- Counterexample to C3 as stated: on a page where all four rules succeed
and no duplicate exists, but whose vehicle token ZZ000ZZ resolves outside
the canonical set, one DeliveryRecord is persisted and yet two
WARNING-genre WarningMessages are created. -/
theorem C3_clean_page_cex :
    (processPage cfgW dboOk inpOdd dbEmpty).map (fun r =>
      (r.failedRules, r.trace.insertedDeliveries.length,
       r.trace.insertedWarnings.map (fun w => w.genre))) =
    Except.ok ([], 1, [MsgGenre.WARNING, MsgGenre.WARNING]) := rfl

/-- A page of an isolated discard document whose DOC_NUMBER rule fails. -/
def extrP001 : PageExtract :=
  ⟨none, some ("ACME", "Milano"), none, some 3200,
   some ("V1234AB", some "Mario Rossi")⟩

/-- The page input for the isolated page 2024_01_DDT_0001_0100_P001.pdf. -/
def inpP001 : PageInput :=
  ⟨extrP001, some ("2024_01_DDT_0001_0100", 1), "2024_01_DDT_0001_0100_P001.pdf", 1, 0⟩

/-- A fully populated discard row for that page whose stored distance is the
falsy value 0. -/
def discardZero : DiscardRow :=
  ⟨some 145, some "TA", some dateW, some "ACME", some "MILANO", some 3200,
   some dateW, some "V1234AB", some "MARIO ROSSI", some 0,
   "2024_01_DDT_0001_0100.pdf", 1, 0, 7, true⟩

/-- A database holding discardZero and its open warning with id 7. -/
def dbZero : DB := ⟨[], [discardZero], [⟨7, MsgGenre.DISCARD, true⟩], [], 8⟩

/-- Counterexample to C2 as stated: re-scanning the isolated page of a
fully populated DiscardRecord (no null fields) whose stored distance is 0
clears the failure set and persists a DeliveryRecord, but the persisted
distance is NULL rather than the stored 0: a zero distance is falsy in
Python, so the distance is re-resolved (here the geocoder fails), and the
record is not persisted with exactly the discard field values. -/
theorem C2_discard_roundtrip_cex :
    ((processPage cfgW dboOk inpP001 dbZero).map (fun r =>
      (r.failedRules, r.trace.insertedDeliveries.map (fun row => row.distance))) =
    Except.ok ([], [none])) ∧
    dbZero.discards.map (fun row => row.distance) = [some 0] := ⟨rfl, rfl⟩

/-- A delivery whose city is MILANO, before distance resolution. -/
def dMilano : Delivery :=
  ⟨none, none, none, none, some "MILANO", none, none, none, none, none,
   "x.pdf", 1, 0, none⟩

/-- Counterexample to C9 as stated: a successful distance resolution issues
exactly one geocoding call, for the delivery city; no second geocoding call
for any departure address is ever made, because the departure coordinates
are read directly from the configuration. -/
theorem C9_distance_resolution_cex :
    (calculate_distance cfgOk dMilano).2.1 = [("MILANO", "IT")] ∧
    (calculate_distance cfgOk dMilano).1.distance = some (mkRat 5000 1 / 1000) :=
  ⟨rfl, rfl⟩

/-- A failed-extraction scan state with no inherited warning id. -/
def deliveryF : Delivery :=
  ⟨none, none, none, some "ACME", some "MILANO", some 3200, none,
   some "V1234AB", some "MARIO ROSSI", none, "f.pdf", 1, 0, none⟩

/-- The scan of deliveryF, its DOC_NUMBER rule having failed. -/
def scanF : Scan := ⟨dbEmpty, deliveryF, ["PATTERN_DOC_NUMBER"], Trace.empty⟩

/-- A fully populated discard row with a nonzero distance and warning id 7. -/
def discardOk : DiscardRow :=
  ⟨some 145, some "TA", some dateW, some "ACME", some "MILANO", some 3200,
   some dateW, some "V1234AB", some "MARIO ROSSI", some 42,
   "2024_01_DDT_0001_0100.pdf", 1, 0, 7, true⟩

/-- A database holding discardOk and its open warning with id 7. -/
def dbDisc : DB := ⟨[], [discardOk], [⟨7, MsgGenre.DISCARD, true⟩], [], 8⟩

/-- The delivery extracted from the isolated page extrP001. -/
def deliveryP001 : Delivery :=
  ⟨none, none, none, some "ACME", some "MILANO", some 3200, none,
   some "V1234AB", some "MARIO ROSSI", none,
   "2024_01_DDT_0001_0100_P001.pdf", 1, 0, none⟩

/-- The extraction state of inpP001 over dbDisc. -/
def s1P001 : Scan := ⟨dbDisc, deliveryP001, ["PATTERN_DOC_NUMBER"], Trace.empty⟩

theorem C1_duplicate_page_witness :
    ∃ r, processPage cfgW dboOk inpW dbDup = Except.ok r ∧
      r.failedRules = ["CHECK_DUPLICATE"] ∧
      r.delivery.id_warning_message = some (-1) ∧
      r.db.deliveries = dbDup.deliveries ∧
      r.trace.insertedDeliveries = [] ∧
      r.db.discards = dbDup.discards ∧
      r.trace.insertedDiscards = [] ∧
      r.trace.insertedWarnings = (s1W dbDup).trace.insertedWarnings ∧
      (∀ w ∈ r.trace.insertedWarnings, w.genre = MsgGenre.WARNING) ∧
      r.db.warnings.length =
        dbDup.warnings.length + (s1W dbDup).trace.insertedWarnings.length ∧
      r.trace.isolated = true ∧ r.discardedDelta = 1 :=
  C1_duplicate_page cfgW dboOk inpW dbDup (s1W dbDup) dateW rfl rfl rfl rfl
    (by decide)

theorem C3_clean_page_witness :
    ∃ r, processPage cfgW dboOk inpW dbEmpty = Except.ok r ∧
      r.trace.insertedDeliveries.length = 1 ∧
      r.db.deliveries = dbEmpty.deliveries ++ r.trace.insertedDeliveries ∧
      r.trace.insertedWarnings = [] ∧
      r.db.warnings.length = dbEmpty.warnings.length ∧
      r.trace.insertedDiscards = [] ∧ r.db.discards = dbEmpty.discards ∧
      r.failedRules = [] ∧ r.trace.isolated = false ∧ r.discardedDelta = 0 :=
  C3_clean_page cfgW dboOk inpW dbEmpty (s1W dbEmpty) dateW "MILANO" "V1234AB"
    (some "Mario Rossi") rfl rfl rfl rfl
    (by
      intro x hx
      have hx2 : some "V1234AB" = some x := hx
      injection hx2 with h
      rw [← h]
      decide)
    (by decide) rfl rfl (by decide) rfl

theorem C2_discard_roundtrip_witness :
    ∃ r, processPage cfgW dboOk inpP001 dbDisc = Except.ok r ∧
      r.trace.insertedDeliveries =
        [deliveryRowOf (chargeFromDiscard s1P001.delivery discardOk)] ∧
      (deliveryRowOf (chargeFromDiscard s1P001.delivery discardOk)).document_number =
        discardOk.document_number ∧
      (deliveryRowOf (chargeFromDiscard s1P001.delivery discardOk)).document_genre =
        discardOk.document_genre ∧
      (deliveryRowOf (chargeFromDiscard s1P001.delivery discardOk)).document_date =
        discardOk.document_date ∧
      (deliveryRowOf (chargeFromDiscard s1P001.delivery discardOk)).company_name =
        discardOk.company_name ∧
      (deliveryRowOf (chargeFromDiscard s1P001.delivery discardOk)).delivery_city =
        discardOk.delivery_city ∧
      (deliveryRowOf (chargeFromDiscard s1P001.delivery discardOk)).quantity =
        discardOk.quantity ∧
      (deliveryRowOf (chargeFromDiscard s1P001.delivery discardOk)).delivery_date =
        discardOk.delivery_date ∧
      (deliveryRowOf (chargeFromDiscard s1P001.delivery discardOk)).vehicle =
        discardOk.vehicle ∧
      (deliveryRowOf (chargeFromDiscard s1P001.delivery discardOk)).vehicle_driver =
        discardOk.vehicle_driver ∧
      (deliveryRowOf (chargeFromDiscard s1P001.delivery discardOk)).distance =
        discardOk.distance ∧
      r.failedRules = [] ∧
      discardOk.id_warning_message ∈ r.trace.warningUpdates ∧
      warningsResolved r.db discardOk.id_warning_message ∧
      r.trace.insertedWarnings = s1P001.trace.insertedWarnings ∧
      r.trace.insertedDiscards = [] ∧
      r.trace.isolated = false ∧ r.discardedDelta = 0 :=
  (C2_discard_roundtrip cfgW dboOk inpP001 dbDisc s1P001 "2024_01_DDT_0001_0100"
      1 discardOk [] rfl (by decide) rfl rfl).1 dateW (by decide) rfl (by decide)
    (by decide) (by decide) rfl

theorem C5_driver_resolution_witness :
    resolve_driver simHalf memW "V1234AB" (some "V1234AB") (some "ZZ") =
      Except.ok (rosterDriver memW (some "V1234AB")) :=
  ((C5_driver_resolution simHalf memW "V1234AB" (some "V1234AB") "ZZ"
      (by decide) (by decide) (Or.inl rfl)).2 (by decide) "ZZ" (by decide)).2 rfl

/-- A delivery row for MILANO with stored distance 10, persisted by an
earlier same-city page. -/
def row10 : DeliveryRow :=
  ⟨some 145, some "TA", some dateW, some "ACME", some "MILANO", some 3200,
   some dateW, some "V1234AB", some "MARIO ROSSI", some 10,
   "2024_01_DDT_0001_0100.pdf", 1, 0⟩

/-- A delivery row for MILANO charged from a manually corrected discard,
whose distance 20 differs from the stored 10. -/
def rowCharged : DeliveryRow :=
  ⟨some 146, some "TA", some dateW, some "ACME", some "MILANO", some 3200,
   some dateW, some "V1234AB", some "MARIO ROSSI", some 20,
   "2024_01_DDT_0001_0101_P001.pdf", 1, 0⟩

/-- A fully populated discard row for MILANO whose manual distance is 20. -/
def discard20 : DiscardRow :=
  ⟨some 146, some "TA", some dateW, some "ACME", some "MILANO", some 3200,
   some dateW, some "V1234AB", some "MARIO ROSSI", some 20,
   "2024_01_DDT_0001_0101.pdf", 1, 0, 9, true⟩

/-- A history that already stores distance 10 for MILANO and holds the
open corrected discard discard20. -/
def dbC7 : DB := ⟨[row10], [discard20], [⟨9, MsgGenre.DISCARD, true⟩], [], 10⟩

/-- The isolated page of the discard document of discard20. -/
def inpC7 : PageInput :=
  ⟨extrP001, some ("2024_01_DDT_0001_0101", 1), "2024_01_DDT_0001_0101_P001.pdf", 1, 0⟩

/-- A distance resolution over a history with one distinct MILANO distance. -/
def scanHit : Scan := ⟨⟨[row10], [], [], [], 1⟩, dMilano, [], Trace.empty⟩

/-- A distance resolution over a history with two distinct MILANO distances. -/
def scanMiss : Scan := ⟨⟨[row10, rowCharged], [], [], [], 1⟩, dMilano, [], Trace.empty⟩

/-- Counterexample to C7 as stated: stored distances for one city need not
be unique, because a discard-corrected record carries its manual distance
past the cache. Here the history already holds distance 10 for MILANO; the
re-scanned discard page charges distance 20 from its DiscardRecord and
persists it, so the DISTINCT lookup then returns two rows and the next
MILANO page issues a geocoding call and sleeps, although same-city
distances were persisted before it. -/
theorem C7_distance_cache_cex :
    ((processPage cfgW dboOk inpC7 dbC7).map
        (fun r => (r.trace.insertedDeliveries.map (fun row => row.distance),
                   distinctDistances r.db "MILANO")) =
      Except.ok ([some 20], [some 10, some 20])) ∧
    ((processPage cfgW dboOk inpC7 dbC7).map
        (fun r => (distance_step cfgW (Scan.mk r.db dMilano [] Trace.empty)).map
          (fun s => (s.trace.geocodeCalls, s.trace.slept))) =
      Except.ok (Except.ok ([("MILANO", "IT")], true))) := ⟨rfl, rfl⟩

/-- C7 (amended): the distance cache is keyed on the DISTINCT stored
distances for the delivery city (QUERY_GET_DISTANCE), reused only when the
row count is exactly 1: when the persisted history holds exactly one
distinct distance for the city, as after a first same-city page persisted
into a history with no other value, the next resolution reuses it with
zero geocoding calls, zero routing calls and no sleep; when the history
holds zero or several distinct values for the city, the resolution calls
the geocoder again and sleeps, even though a distance for the city may
have been persisted before. -/
theorem C7_distance_cache (cfg : Config) (scan : Scan) (c : String) (v : Option Rat)
    (hc : scan.delivery.delivery_city = some c)
    (hdist : ratOptTruthy scan.delivery.distance = false) :
    (distinctDistances scan.db c = [v] →
      ∃ s', distance_step cfg scan = Except.ok s' ∧
        s'.delivery.distance = v ∧
        s'.trace.geocodeCalls = scan.trace.geocodeCalls ∧
        s'.trace.routeCalls = scan.trace.routeCalls ∧
        s'.trace.slept = scan.trace.slept) ∧
    ((distinctDistances scan.db c).length ≠ 1 →
      ∃ s', distance_step cfg scan = Except.ok s' ∧
        s'.delivery = (calculate_distance cfg scan.delivery).1 ∧
        s'.trace.geocodeCalls =
          scan.trace.geocodeCalls ++ (calculate_distance cfg scan.delivery).2.1 ∧
        s'.trace.routeCalls =
          scan.trace.routeCalls ++ (calculate_distance cfg scan.delivery).2.2 ∧
        s'.trace.slept = true) := by
  constructor
  · intro hdd
    unfold distance_step
    rw [if_neg (by simp [hdist])]
    simp only [hc, hdd]
    rw [if_pos (show ([v] : List (Option Rat)).length = 1 from rfl)]
    exact ⟨_, rfl, rfl, rfl, rfl, rfl⟩
  · intro hlen
    unfold distance_step
    rw [if_neg (by simp [hdist])]
    simp only [hc]
    rw [if_neg hlen]
    exact ⟨_, rfl, rfl, rfl, rfl, rfl⟩

theorem C7_distance_cache_witness :
    (∃ s', distance_step cfgW scanHit = Except.ok s' ∧
      s'.delivery.distance = some 10 ∧
      s'.trace.geocodeCalls = scanHit.trace.geocodeCalls ∧
      s'.trace.routeCalls = scanHit.trace.routeCalls ∧
      s'.trace.slept = scanHit.trace.slept) ∧
    (∃ s', distance_step cfgW scanMiss = Except.ok s' ∧
      s'.delivery = (calculate_distance cfgW scanMiss.delivery).1 ∧
      s'.trace.geocodeCalls =
        scanMiss.trace.geocodeCalls ++ (calculate_distance cfgW scanMiss.delivery).2.1 ∧
      s'.trace.routeCalls =
        scanMiss.trace.routeCalls ++ (calculate_distance cfgW scanMiss.delivery).2.2 ∧
      s'.trace.slept = true) :=
  ⟨(C7_distance_cache cfgW scanHit "MILANO" (some 10) rfl rfl).1 rfl,
   (C7_distance_cache cfgW scanMiss "MILANO" none rfl rfl).2 (by decide)⟩

theorem C8_sleep_iff_cache_miss_witness :
    ∃ s', distance_step cfgW scanF = Except.ok s' ∧
      (s'.trace.slept = true ↔
        (ratOptTruthy scanF.delivery.distance = false ∧
         (distinctDistances scanF.db "MILANO").length ≠ 1)) :=
  C8_sleep_iff_cache_miss cfgW scanF "MILANO" rfl rfl

theorem C9_distance_resolution_witness :
    (calculate_distance cfgOk dMilano).2.1 = [("MILANO", "IT")] ∧
    (calculate_distance cfgOk dMilano).1.distance =
      geo_distance_from_coords cfgOk.svc cfgOk.departure_coords (1, 2) ∧
    (calculate_distance cfgOk dMilano).2.2 = [(cfgOk.departure_coords, (1, 2))] :=
  ⟨(C9_distance_resolution cfgOk dMilano "MILANO" rfl (by decide)).1,
   ((C9_distance_resolution cfgOk dMilano "MILANO" rfl (by decide)).2.1
      (1, 2) rfl).1,
   ((C9_distance_resolution cfgOk dMilano "MILANO" rfl (by decide)).2.1
      (1, 2) rfl).2⟩

end Wheeck
